import Mathlib

/-!
Batch-norm to TensorRT converter.

A shallow embedding of `BatchNormOpConverter::operator()` from
`paddle/fluid/inference/tensorrt/convert/batch_norm_op.cc`.

The element type of the parameter tensors is a type parameter `α` carrying the
four arithmetic operations the loop uses, and `sqrtf` is passed as a function;
the statements that the specification reads over the reals instantiate `α` with
`ℝ` and `sqrtf` with `Real.sqrt`.

A tensor is represented by its flat buffer: the converter uses `dims()` only to
size the buffers it allocates (`Resize`) and to obtain an element count
(`memory_size() / sizeof(float)`).
-/

namespace BatchNormTRT

/-! ## Framework data -/

/-- Outcomes that stop a conversion.  `NotFound` is `common::errors::NotFound`
raised by `PADDLE_ENFORCE_NOT_NULL`; `OutOfBounds` marks an access of a raw
buffer at an index outside it, which is undefined behaviour in the source.
The file raises no other error. -/
inductive Error where
  | NotFound (msg : String)
  | OutOfBounds
deriving DecidableEq, Repr

/-- Modelled from the spec: the tensor type `phi::DenseTensor`, declared outside
this file; a multi-dimensional array of floats, given here by its flat buffer
of elements. -/
structure DenseTensor (α : Type) where
  data : List α
deriving DecidableEq, Repr

/-- Number of elements of a tensor (the product of its `dims()`). -/
def DenseTensor.numel {α : Type} (t : DenseTensor α) : Nat := t.data.length

/-- The constant `sizeof(float)`. -/
def sizeof_float : Nat := 4

/-- Bytes held by a tensor of floats, `memory_size()`.  The product stays far
below the range of `size_t` for any buffer that fits in memory. -/
def DenseTensor.memory_size {α : Type} (t : DenseTensor α) : Nat :=
  t.numel * sizeof_float

/-- Freshly allocated storage of `n` elements, as `Resize` followed by
`mutable_data<float>` yields it; `uninit` gives the indeterminate contents. -/
def mutable_data {α : Type} (uninit : Nat → α) (n : Nat) : List α :=
  (List.range n).map uninit

/-- Modelled from the spec: `paddle::framework::TensorCopySync`, the device-copy
primitive, which is not part of this file.  The copy is synchronous and yields a
shape-identical host copy of the source tensor. -/
def TensorCopySync {α : Type} (src : DenseTensor α) : DenseTensor α :=
  { data := src.data }

/-- Modelled from the spec: the source variable store `framework::Scope`,
declared outside this file; a store of named tensors. -/
structure Scope (α : Type) where
  vars : List (String × DenseTensor α)

/-- Modelled from the spec: `Scope::FindVar`, which is not part of this file;
`lookup(name)` yields the tensor or reports it absent (`none`, the null
pointer). -/
def Scope.FindVar {α : Type} (scope : Scope α) (name : String) :
    Option (DenseTensor α) :=
  scope.vars.lookup name

/-- Modelled from the spec: the operator descriptor `framework::OpDesc`,
declared outside this file.  It exposes the input names by role (`Input(role)
.front()`), one declared output name (`Output("Y").front()`), and the required
floating-point attribute `epsilon`. -/
structure OpDesc (α : Type) where
  X : String
  Bias : String
  Mean : String
  Scale : String
  Variance : String
  epsilon : α
  Y : String

/-- Modelled from the spec: the macro `PADDLE_ENFORCE_NOT_NULL(ptr, err)`,
defined outside this file; the conversion fails at once with `err` when `ptr`
is null. -/
def PADDLE_ENFORCE_NOT_NULL {β : Type} (ptr : Option β) (err : Error) :
    Except Error β :=
  match ptr with
  | some v => .ok v
  | none => .error err

/-! ## TensorRT data -/

/-- The shape `nvinfer1::Dims`: the extents `d[0], ..., d[nbDims - 1]`.  A
negative extent stands for an unknown (dynamic) one. -/
abbrev Dims := List Int

/-- The field `nbDims`. -/
def Dims.nbDims (x : Dims) : Nat := x.length

/-- The extent `d[i]`, read for `i < nbDims` only. -/
def Dims.d (x : Dims) (i : Nat) : Int := x.getD i 0

/-- A handle `nvinfer1::ITensor*`: either a tensor the network held before the
conversion, or an output of one of the network's layers. -/
inductive ITensor where
  | external (id : Nat)
  | layerOutput (layer : Nat) (index : Nat)
deriving DecidableEq, Repr

/-- The enumeration `nvinfer1::DataType`. -/
inductive DataType where
  | kFLOAT
  | kHALF
  | kINT8
  | kINT32
deriving DecidableEq, Repr

/-- The enumeration `nvinfer1::ScaleMode`. -/
inductive ScaleMode where
  | kUNIFORM
  | kCHANNEL
  | kELEMENTWISE
deriving DecidableEq, Repr

/-- Coefficients `nvinfer1::Weights` (what `TensorRTEngine::Weight::get()`
returns): `values` is the buffer the pointer refers to, `none` for `nullptr`. -/
structure Weights (α : Type) where
  type : DataType
  values : Option (List α)
  count : Nat
deriving DecidableEq, Repr

/-- What a layer of the network is: a shuffle layer with the reshape dimensions
set on it (if any), or a scale layer with the arguments of `addScaleNd`. -/
inductive LayerKind (α : Type) where
  | Shuffle (reshapeDimensions : Option Dims)
  | ScaleNd (mode : ScaleMode) (shift scale power : Weights α) (channelAxis : Int)
deriving DecidableEq, Repr

/-- A layer `nvinfer1::ILayer` of the network. -/
structure ILayer (α : Type) where
  kind : LayerKind α
  input : ITensor
  name : String
deriving DecidableEq, Repr

/-- The part of `TensorRTEngine` the converter touches: the name-to-tensor map,
the shapes of its tensors, the layers of the network in the order they were
added, the names given to tensors, the weight registry, and the bindings made
for declared output names. -/
structure TensorRTEngine (α : Type) where
  itensor_map : String → ITensor
  dimensions : ITensor → Dims
  layers : List (ILayer α)
  tensor_names : List (ITensor × String)
  weight_map : List (String × DenseTensor α)
  bound_outputs : List (String × ITensor × Bool)

/-- Modelled from the spec: `TensorRTEngine::GetITensor`, which is not part of
this file; the converter obtains the tensor handle of its input, a step for
which the spec lists no failure. -/
def TensorRTEngine.GetITensor {α : Type} (e : TensorRTEngine α) (name : String) :
    ITensor :=
  e.itensor_map name

/-- Shape query `tensor->getDimensions()`. -/
def TensorRTEngine.getDimensions {α : Type} (e : TensorRTEngine α) (t : ITensor) :
    Dims :=
  e.dimensions t

/-- Output handle `layer->getOutput(index)` of the layer at position `layer`. -/
def getOutput (layer : Nat) (index : Nat) : ITensor :=
  ITensor.layerOutput layer index

/-- Apply `f` to the layer at position `layer`, leaving the others alone. -/
def TensorRTEngine.updateLayer {α : Type} (e : TensorRTEngine α) (layer : Nat)
    (f : ILayer α → ILayer α) : TensorRTEngine α :=
  { e with layers := e.layers.modify f layer }

/-- Modelled from the spec: the macro `TRT_ENGINE_ADD_LAYER` is defined outside
this file.  `TRT_ENGINE_ADD_LAYER(engine_, Shuffle, input)` is the graph
builder's call that adds a reshape node: it appends a shuffle layer and returns
its position together with the new engine state. -/
def TensorRTEngine.addShuffle {α : Type} (e : TensorRTEngine α) (input : ITensor) :
    Nat × TensorRTEngine α :=
  (e.layers.length,
   { e with layers := e.layers ++ [{ kind := .Shuffle none, input := input, name := "" }] })

/-- Modelled from the spec: the macro `TRT_ENGINE_ADD_LAYER` is defined outside
this file.  `TRT_ENGINE_ADD_LAYER(engine_, ScaleNd, input, mode, shift, scale,
power, channelAxis)` is the graph builder's call that adds an affine node; the
arguments are taken in the order of the call site, which is the order of
TensorRT's `addScaleNd`: shift, then scale, then power. -/
def TensorRTEngine.addScaleNd {α : Type} (e : TensorRTEngine α) (input : ITensor)
    (mode : ScaleMode) (shift scale power : Weights α) (channelAxis : Int) :
    Nat × TensorRTEngine α :=
  (e.layers.length,
   { e with layers := e.layers ++
      [{ kind := .ScaleNd mode shift scale power channelAxis, input := input, name := "" }] })

/-- The call `layer->setReshapeDimensions(dims)` on a shuffle layer. -/
def TensorRTEngine.setReshapeDimensions {α : Type} (e : TensorRTEngine α)
    (layer : Nat) (dims : Dims) : TensorRTEngine α :=
  e.updateLayer layer fun l =>
    match l.kind with
    | .Shuffle _ => { l with kind := .Shuffle (some dims) }
    | _ => l

/-- The call `layer->setName(name)`. -/
def TensorRTEngine.setLayerName {α : Type} (e : TensorRTEngine α) (layer : Nat)
    (name : String) : TensorRTEngine α :=
  e.updateLayer layer fun l => { l with name := name }

/-- The call `tensor->setName(name)`. -/
def TensorRTEngine.setTensorName {α : Type} (e : TensorRTEngine α) (t : ITensor)
    (name : String) : TensorRTEngine α :=
  { e with tensor_names := e.tensor_names ++ [(t, name)] }

/-- Modelled from the spec: `TensorRTEngine::SetWeights`, which is not part of
this file.  The spec has the buffer moved into the engine's weight-ownership
registry keyed by the name passed in, and has the engine keep every registered
buffer alive; so a registration adds an entry and drops none. -/
def TensorRTEngine.SetWeights {α : Type} (e : TensorRTEngine α) (w_name : String)
    (w_tensor : DenseTensor α) : TensorRTEngine α :=
  { e with weight_map := e.weight_map ++ [(w_name, w_tensor)] }

/-- Modelled from the spec: `OpConverter::ReplenishLayerAndOutput`, which is not
part of this file.  The spec has the output handle of the layer carry the
declared output name, has that name bound to the handle, and has the binding
registered as a persistent output outside of test mode (`layer_type` only
feeds the diagnostic name, whose format the spec leaves open). -/
def ReplenishLayerAndOutput {α : Type} (e : TensorRTEngine α) (layer : Nat)
    (_layer_type : String) (output_name : String) (test_mode : Bool) :
    TensorRTEngine α :=
  let out := getOutput layer 0
  let e1 := e.setTensorName out output_name
  { e1 with
    itensor_map := fun n => if n = output_name then out else e1.itensor_map n
    bound_outputs := e1.bound_outputs ++ [(output_name, out, !test_mode)] }

/-! ## The converter -/

/-- Read `buf[i]` of a raw buffer. -/
def readAt {α : Type} (buf : List α) (i : Nat) : Except Error α :=
  match buf[i]? with
  | some x => .ok x
  | none => .error .OutOfBounds

/-- Store `buf[i] = x` into a raw buffer. -/
def writeAt {α : Type} (buf : List α) (i : Nat) (x : α) : Except Error (List α) :=
  if i < buf.length then .ok (buf.set i x) else .error .OutOfBounds

/-- The body of the fusion loop (lines 102 to 107) at index `i`, acting on the
pair of output buffers `(combine_scale_data, combine_bias_data)`. -/
def fusionBody {α : Type} [Add α] [Sub α] [Mul α] [Div α] (sqrtf : α → α) (eps : α)
    (scale_data bias_data mean_data variance_data : List α)
    (st : List α × List α) (i : Nat) : Except Error (List α × List α) := do
  let scale ← readAt scale_data i
  let bias ← readAt bias_data i
  let mean ← readAt mean_data i
  let variance ← readAt variance_data i
  let combine_scale_data ← writeAt st.1 i (scale / sqrtf (variance + eps))
  let fused ← readAt combine_scale_data i
  let combine_bias_data ← writeAt st.2 i (bias - mean * fused)
  pure (combine_scale_data, combine_bias_data)

/-- The fusion loop `for (size_t i = 0; i < ele_num; i++)` (lines 101 to 108). -/
def fusionLoop {α : Type} [Add α] [Sub α] [Mul α] [Div α] (sqrtf : α → α) (eps : α)
    (scale_data bias_data mean_data variance_data : List α) (ele_num : Nat)
    (combine_scale_data combine_bias_data : List α) :
    Except Error (List α × List α) :=
  (List.range ele_num).foldlM
    (fusionBody sqrtf eps scale_data bias_data mean_data variance_data)
    (combine_scale_data, combine_bias_data)

/-- The shape set on the expanding shuffle layer (lines 127 to 135). -/
def expand_shape (x_dim : Dims) : Dims :=
  (List.range 4).map fun i =>
    if i < x_dim.nbDims then (if x_dim.d i < 0 then 0 else x_dim.d i) else 1

/-- The shape set on the restoring shuffle layer (lines 161 to 165). -/
def squeeze_shape (x_dim : Dims) : Dims :=
  (List.range x_dim.nbDims).map fun i => if x_dim.d i < 0 then 0 else x_dim.d i

/-- Lines 110 to 174 of `operator()`: the weights, the optional expanding
shuffle layer, the scale layer, the registration of the two fused tensors, and
the optional restoring shuffle layer with the binding of the output name. -/
def emitLayers {α : Type} (engine_ : TensorRTEngine α) (op : OpDesc α)
    (test_mode : Bool) (X : ITensor)
    (combine_scale_tensor combine_bias_tensor : DenseTensor α) : TensorRTEngine α :=
  let output_name := op.Y
  let scale_weights : Weights α :=
    { type := .kFLOAT, values := some combine_scale_tensor.data,
      count := combine_scale_tensor.memory_size / sizeof_float }
  let shift_weights : Weights α :=
    { type := .kFLOAT, values := some combine_bias_tensor.data,
      count := combine_bias_tensor.memory_size / sizeof_float }
  let power_weights : Weights α := { type := .kFLOAT, values := none, count := 0 }
  let x_dim := engine_.getDimensions X
  let (X, e1) :=
    if x_dim.nbDims < 4 then
      let (expand_layer, e) := engine_.addShuffle X
      let e := e.setReshapeDimensions expand_layer (expand_shape x_dim)
      let e := e.setTensorName (getOutput expand_layer 0)
        ("reshape_before_batchnorm_out: " ++ output_name)
      let e := e.setLayerName expand_layer ("BN_Shuffle: (Output: " ++ output_name ++ ")")
      (getOutput expand_layer 0, e)
    else (X, engine_)
  let (layer, e2) :=
    e1.addScaleNd X .kCHANNEL shift_weights scale_weights power_weights 1
  let e3 := e2.SetWeights op.Bias combine_bias_tensor
  let e4 := e3.SetWeights op.Scale combine_scale_tensor
  if x_dim.nbDims < 4 then
    let e5 := e4.setTensorName (getOutput layer 0) ("BN: ScaleNd: " ++ output_name)
    let e6 := e5.setLayerName layer ("BN: ScaleNd: (Output: " ++ output_name ++ ")")
    let (squeeze_layer, e7) := e6.addShuffle (getOutput layer 0)
    let e8 := e7.setReshapeDimensions squeeze_layer (squeeze_shape x_dim)
    ReplenishLayerAndOutput e8 squeeze_layer "batchnorm_add_scale" output_name test_mode
  else
    ReplenishLayerAndOutput e4 layer "batchnorm_add_scale" output_name test_mode

/-- The converter `BatchNormOpConverter::operator()(op, scope, test_mode)`
acting on the engine `engine_`. -/
def BatchNormOpConverter.operator {α : Type} [Add α] [Sub α] [Mul α] [Div α]
    (sqrtf : α → α) (uninit : Nat → α) (engine_ : TensorRTEngine α)
    (op : OpDesc α) (scope : Scope α) (test_mode : Bool) :
    Except Error (TensorRTEngine α) := do
  let X := engine_.GetITensor op.X
  let Bias_v := scope.FindVar op.Bias
  let Mean_v := scope.FindVar op.Mean
  let Scale_v := scope.FindVar op.Scale
  let Variance_v := scope.FindVar op.Variance
  let eps := op.epsilon
  let Bias_t ← PADDLE_ENFORCE_NOT_NULL Bias_v
    (.NotFound "Variable of Bias of batch_norm TRT converter is not found.")
  let Mean_t ← PADDLE_ENFORCE_NOT_NULL Mean_v
    (.NotFound "Variable of Mean of batch_norm TRT converter is not found.")
  let Scale_t ← PADDLE_ENFORCE_NOT_NULL Scale_v
    (.NotFound "Variable of Scale of batch_norm TRT converter is not found.")
  let Variance_t ← PADDLE_ENFORCE_NOT_NULL Variance_v
    (.NotFound "Variable of Variance of batch_norm TRT converter is not found.")
  let bias_tensor := TensorCopySync Bias_t
  let mean_tensor := TensorCopySync Mean_t
  let scale_tensor := TensorCopySync Scale_t
  let variance_tensor := TensorCopySync Variance_t
  let combine_scale_data0 := mutable_data uninit scale_tensor.numel
  let combine_bias_data0 := mutable_data uninit bias_tensor.numel
  let ele_num := (DenseTensor.mk combine_scale_data0).memory_size / sizeof_float
  let (combine_scale_data, combine_bias_data) ←
    fusionLoop sqrtf eps scale_tensor.data bias_tensor.data mean_tensor.data
      variance_tensor.data ele_num combine_scale_data0 combine_bias_data0
  pure (emitLayers engine_ op test_mode X
    { data := combine_scale_data } { data := combine_bias_data })

/-! ## Vocabulary of the statements -/

/-- The four parameter inputs of the operator. -/
inductive Param where
  | Bias
  | Mean
  | Scale
  | Variance
deriving DecidableEq, Repr

/-- The slot name of a parameter input. -/
def Param.roleName : Param → String
  | .Bias => "Bias"
  | .Mean => "Mean"
  | .Scale => "Scale"
  | .Variance => "Variance"

/-- The variable name `op_desc.Input(role).front()` of a parameter input. -/
def OpDesc.Input {α : Type} (op : OpDesc α) : Param → String
  | .Bias => op.Bias
  | .Mean => op.Mean
  | .Scale => op.Scale
  | .Variance => op.Variance

/-- The text of the not-found error that names the parameter input `p`. -/
def notFoundMessage (p : Param) : String :=
  "Variable of " ++ p.roleName ++ " of batch_norm TRT converter is not found."

/-- Whether a layer is a scale (affine) layer. -/
def ILayer.isScaleNd {α : Type} (l : ILayer α) : Bool :=
  match l.kind with
  | .ScaleNd _ _ _ _ _ => true
  | .Shuffle _ => false

/-- Whether a layer is a shuffle (reshape) layer. -/
def ILayer.isShuffle {α : Type} (l : ILayer α) : Bool :=
  match l.kind with
  | .Shuffle _ => true
  | .ScaleNd _ _ _ _ _ => false

/-- The reshape dimensions set on a shuffle layer, `getReshapeDimensions()`. -/
def ILayer.getReshapeDimensions {α : Type} (l : ILayer α) : Option Dims :=
  match l.kind with
  | .Shuffle d => d
  | .ScaleNd _ _ _ _ _ => none

/-- An engine with an empty network in which every name resolves to one tensor
of shape `x_dim`. -/
def sampleEngine (α : Type) (x_dim : Dims) : TensorRTEngine α :=
  { itensor_map := fun _ => .external 0
    dimensions := fun _ => x_dim
    layers := []
    tensor_names := []
    weight_map := []
    bound_outputs := [] }

/-- A `batch_norm` descriptor with stability constant `eps`. -/
def sampleOp {α : Type} (eps : α) : OpDesc α :=
  { X := "x", Bias := "bn_bias", Mean := "bn_mean", Scale := "bn_scale",
    Variance := "bn_variance", epsilon := eps, Y := "y" }

/-- A variable store holding the four parameter tensors of `sampleOp`. -/
def sampleScope {α : Type} (scale bias mean variance : List α) : Scope α :=
  { vars := [("bn_scale", { data := scale }), ("bn_bias", { data := bias }),
      ("bn_mean", { data := mean }), ("bn_variance", { data := variance })] }

/-- A variable store holding Scale, Bias and Variance of `sampleOp` but not
its Mean. -/
def sampleScopeNoMean {α : Type} (scale bias variance : List α) : Scope α :=
  { vars := [("bn_scale", { data := scale }), ("bn_bias", { data := bias }),
      ("bn_variance", { data := variance })] }

/-! ## Auxiliary facts -/

theorem readAt_of_some {α : Type} {buf : List α} {i : Nat} {x : α}
    (h : buf[i]? = some x) : readAt buf i = .ok x := by
  simp [readAt, h]

theorem writeAt_of_lt {α : Type} {buf : List α} {i : Nat} (x : α)
    (h : i < buf.length) : writeAt buf i x = .ok (buf.set i x) := by
  simp [writeAt, h]

theorem fusionBody_of_inbounds {α : Type} [Add α] [Sub α] [Mul α] [Div α]
    (sqrtf : α → α) (eps : α) {scale_data bias_data mean_data variance_data : List α}
    {cs cb : List α} {i : Nat} {s b m v : α}
    (hs : scale_data[i]? = some s) (hb : bias_data[i]? = some b)
    (hm : mean_data[i]? = some m) (hv : variance_data[i]? = some v)
    (hcs : i < cs.length) (hcb : i < cb.length) :
    fusionBody sqrtf eps scale_data bias_data mean_data variance_data (cs, cb) i
      = .ok (cs.set i (s / sqrtf (v + eps)), cb.set i (b - m * (s / sqrtf (v + eps)))) := by
  have hr : readAt (cs.set i (s / sqrtf (v + eps))) i = .ok (s / sqrtf (v + eps)) :=
    readAt_of_some (by simp [hcs])
  simp only [fusionBody, readAt_of_some hs, readAt_of_some hb, readAt_of_some hm,
    readAt_of_some hv, writeAt_of_lt _ hcs, writeAt_of_lt _ hcb, bind, Except.bind, hr,
    pure, Except.pure]

theorem fusionLoop_prefix {α : Type} [Add α] [Sub α] [Mul α] [Div α]
    (sqrtf : α → α) (eps : α) (scale_data bias_data mean_data variance_data : List α)
    (cs0 cb0 : List α) (n : Nat)
    (hs : n ≤ scale_data.length) (hb : n ≤ bias_data.length)
    (hm : n ≤ mean_data.length) (hv : n ≤ variance_data.length)
    (hcs : n ≤ cs0.length) (hcb : n ≤ cb0.length) :
    ∃ cs cb,
      fusionLoop sqrtf eps scale_data bias_data mean_data variance_data n cs0 cb0
        = .ok (cs, cb)
      ∧ cs.length = cs0.length ∧ cb.length = cb0.length
      ∧ (∀ i s b m v, i < n → scale_data[i]? = some s → bias_data[i]? = some b →
          mean_data[i]? = some m → variance_data[i]? = some v →
          cs[i]? = some (s / sqrtf (v + eps))
          ∧ cb[i]? = some (b - m * (s / sqrtf (v + eps))))
      ∧ (∀ i, n ≤ i → cs[i]? = cs0[i]? ∧ cb[i]? = cb0[i]?) := by
  induction n with
  | zero =>
    exact ⟨cs0, cb0, rfl, rfl, rfl, fun i _ _ _ _ h => absurd h (Nat.not_lt_zero i),
      fun _ _ => ⟨rfl, rfl⟩⟩
  | succ n ih =>
    obtain ⟨cs, cb, hloop, hlcs, hlcb, hpt, hrest⟩ :=
      ih (Nat.le_of_succ_le hs) (Nat.le_of_succ_le hb) (Nat.le_of_succ_le hm)
        (Nat.le_of_succ_le hv) (Nat.le_of_succ_le hcs) (Nat.le_of_succ_le hcb)
    have hsn : scale_data[n]? = some scale_data[n] := List.getElem?_eq_getElem hs
    have hbn : bias_data[n]? = some bias_data[n] := List.getElem?_eq_getElem hb
    have hmn : mean_data[n]? = some mean_data[n] := List.getElem?_eq_getElem hm
    have hvn : variance_data[n]? = some variance_data[n] := List.getElem?_eq_getElem hv
    have hncs : n < cs.length := by omega
    have hncb : n < cb.length := by omega
    refine ⟨cs.set n (scale_data[n] / sqrtf (variance_data[n] + eps)),
      cb.set n (bias_data[n] - mean_data[n] * (scale_data[n] / sqrtf (variance_data[n] + eps))),
      ?_, by simp [hlcs], by simp [hlcb], ?_, ?_⟩
    · unfold fusionLoop at hloop ⊢
      rw [List.range_succ, List.foldlM_append, hloop]
      simp only [bind, Except.bind, List.foldlM, pure, Except.pure,
        fusionBody_of_inbounds sqrtf eps hsn hbn hmn hvn hncs hncb]
    · intro i s b m v hi his hib him hiv
      by_cases hin : i = n
      · subst hin
        rw [hsn] at his; rw [hbn] at hib; rw [hmn] at him; rw [hvn] at hiv
        cases his; cases hib; cases him; cases hiv
        simp [hncs, hncb]
      · have hlt : i < n := by omega
        obtain ⟨h1, h2⟩ := hpt i s b m v hlt his hib him hiv
        simp [List.getElem?_set_ne (Ne.symm hin), h1, h2]
    · intro i hi
      have hne : n ≠ i := by omega
      obtain ⟨h1, h2⟩ := hrest i (by omega)
      simp [List.getElem?_set_ne hne, h1, h2]

theorem memory_size_div {α : Type} (t : DenseTensor α) :
    t.memory_size / sizeof_float = t.numel := by
  simp [DenseTensor.memory_size, sizeof_float]

theorem modify_append_last {β : Type} (f : β → β) (l : List β) (x : β) :
    (l ++ [x]).modify f l.length = l ++ [f x] := by
  induction l with
  | nil => rfl
  | cons a l ih => simp [ih]

theorem modify_append_last2 {β : Type} (f : β → β) (l : List β) (x y : β) :
    (l ++ [x, y]).modify f (l.length + 1) = l ++ [x, f y] := by
  induction l with
  | nil => rfl
  | cons a l ih => simp [ih]

theorem modify_append_last3 {β : Type} (f : β → β) (l : List β) (x y z : β) :
    (l ++ [x, y, z]).modify f (l.length + 2) = l ++ [x, y, f z] := by
  induction l with
  | nil => rfl
  | cons a l ih => simp [ih]

theorem emitLayers_layers_lt {α : Type} (engine_ : TensorRTEngine α) (op : OpDesc α)
    (test_mode : Bool) (X : ITensor) (cs cb : DenseTensor α)
    (h : (engine_.getDimensions X).nbDims < 4) :
    (emitLayers engine_ op test_mode X cs cb).layers = engine_.layers ++
      [ { kind := .Shuffle (some (expand_shape (engine_.getDimensions X))), input := X,
          name := "BN_Shuffle: (Output: " ++ op.Y ++ ")" },
        { kind := .ScaleNd .kCHANNEL
            { type := .kFLOAT, values := some cb.data, count := cb.numel }
            { type := .kFLOAT, values := some cs.data, count := cs.numel }
            { type := .kFLOAT, values := none, count := 0 } 1,
          input := getOutput engine_.layers.length 0,
          name := "BN: ScaleNd: (Output: " ++ op.Y ++ ")" },
        { kind := .Shuffle (some (squeeze_shape (engine_.getDimensions X))),
          input := getOutput (engine_.layers.length + 1) 0, name := "" } ] := by
  simp [emitLayers, h, memory_size_div, TensorRTEngine.addShuffle, TensorRTEngine.addScaleNd,
    TensorRTEngine.setReshapeDimensions, TensorRTEngine.setLayerName,
    TensorRTEngine.setTensorName, TensorRTEngine.SetWeights, TensorRTEngine.updateLayer,
    ReplenishLayerAndOutput, modify_append_last, modify_append_last2, modify_append_last3]

theorem emitLayers_layers_ge {α : Type} (engine_ : TensorRTEngine α) (op : OpDesc α)
    (test_mode : Bool) (X : ITensor) (cs cb : DenseTensor α)
    (h : ¬ (engine_.getDimensions X).nbDims < 4) :
    (emitLayers engine_ op test_mode X cs cb).layers = engine_.layers ++
      [ { kind := .ScaleNd .kCHANNEL
            { type := .kFLOAT, values := some cb.data, count := cb.numel }
            { type := .kFLOAT, values := some cs.data, count := cs.numel }
            { type := .kFLOAT, values := none, count := 0 } 1,
          input := X, name := "" } ] := by
  simp [emitLayers, h, memory_size_div, TensorRTEngine.addScaleNd,
    TensorRTEngine.setTensorName, TensorRTEngine.SetWeights, ReplenishLayerAndOutput]

theorem emitLayers_weight_map {α : Type} (engine_ : TensorRTEngine α) (op : OpDesc α)
    (test_mode : Bool) (X : ITensor) (cs cb : DenseTensor α) :
    (emitLayers engine_ op test_mode X cs cb).weight_map =
      engine_.weight_map ++ [(op.Bias, cb), (op.Scale, cs)] := by
  by_cases h : (engine_.getDimensions X).nbDims < 4 <;>
  simp [emitLayers, h, TensorRTEngine.addShuffle, TensorRTEngine.addScaleNd,
    TensorRTEngine.setReshapeDimensions, TensorRTEngine.setLayerName,
    TensorRTEngine.setTensorName, TensorRTEngine.SetWeights, TensorRTEngine.updateLayer,
    ReplenishLayerAndOutput]

theorem emitLayers_bound_outputs {α : Type} (engine_ : TensorRTEngine α) (op : OpDesc α)
    (test_mode : Bool) (X : ITensor) (cs cb : DenseTensor α) :
    (emitLayers engine_ op test_mode X cs cb).bound_outputs =
      engine_.bound_outputs ++ [(op.Y,
        getOutput (if (engine_.getDimensions X).nbDims < 4 then engine_.layers.length + 2
          else engine_.layers.length) 0, !test_mode)] := by
  by_cases h : (engine_.getDimensions X).nbDims < 4 <;>
  simp [emitLayers, h, TensorRTEngine.addShuffle, TensorRTEngine.addScaleNd,
    TensorRTEngine.setReshapeDimensions, TensorRTEngine.setLayerName,
    TensorRTEngine.setTensorName, TensorRTEngine.SetWeights, TensorRTEngine.updateLayer,
    ReplenishLayerAndOutput]

theorem emitLayers_itensor_map {α : Type} (engine_ : TensorRTEngine α) (op : OpDesc α)
    (test_mode : Bool) (X : ITensor) (cs cb : DenseTensor α) :
    (emitLayers engine_ op test_mode X cs cb).itensor_map op.Y =
        getOutput (if (engine_.getDimensions X).nbDims < 4 then engine_.layers.length + 2
          else engine_.layers.length) 0 := by
  by_cases h : (engine_.getDimensions X).nbDims < 4 <;>
  simp [emitLayers, h, TensorRTEngine.addShuffle, TensorRTEngine.addScaleNd,
    TensorRTEngine.setReshapeDimensions, TensorRTEngine.setLayerName,
    TensorRTEngine.setTensorName, TensorRTEngine.SetWeights, TensorRTEngine.updateLayer,
    ReplenishLayerAndOutput]

theorem lt_of_some {β : Type} {l : List β} {i : Nat} {x : β}
    (h : l[i]? = some x) : i < l.length := by
  by_contra hc
  rw [List.getElem?_eq_none (Nat.le_of_not_lt hc)] at h
  cases h

theorem fusionBody_ok_inv {α : Type} [Add α] [Sub α] [Mul α] [Div α]
    (sqrtf : α → α) (eps : α) {scale_data bias_data mean_data variance_data : List α}
    {st r : List α × List α} {i : Nat}
    (h : fusionBody sqrtf eps scale_data bias_data mean_data variance_data st i = .ok r) :
    i < scale_data.length ∧ i < bias_data.length ∧ i < mean_data.length
      ∧ i < variance_data.length ∧ i < st.1.length ∧ i < st.2.length := by
  unfold fusionBody readAt writeAt at h
  simp only [bind, Except.bind] at h
  cases hs : scale_data[i]? with
  | none => simp [hs] at h
  | some s =>
    cases hb : bias_data[i]? with
    | none => simp [hs, hb] at h
    | some b =>
      cases hm : mean_data[i]? with
      | none => simp [hs, hb, hm] at h
      | some m =>
        cases hv : variance_data[i]? with
        | none => simp [hs, hb, hm, hv] at h
        | some v =>
          by_cases h1 : i < st.1.length
          · by_cases h2 : i < st.2.length
            · exact ⟨lt_of_some hs, lt_of_some hb, lt_of_some hm, lt_of_some hv, h1, h2⟩
            · simp [hs, hb, hm, hv, h1, h2] at h
          · simp [hs, hb, hm, hv, h1] at h

theorem fusionLoop_ok_inv {α : Type} [Add α] [Sub α] [Mul α] [Div α]
    (sqrtf : α → α) (eps : α) (scale_data bias_data mean_data variance_data : List α)
    (cs0 cb0 : List α) (n : Nat) {r : List α × List α}
    (h : fusionLoop sqrtf eps scale_data bias_data mean_data variance_data n cs0 cb0 = .ok r) :
    n ≤ scale_data.length ∧ n ≤ bias_data.length ∧ n ≤ mean_data.length
      ∧ n ≤ variance_data.length ∧ n ≤ cs0.length ∧ n ≤ cb0.length := by
  induction n generalizing r with
  | zero => simp
  | succ n ih =>
    unfold fusionLoop at h
    rw [List.range_succ, List.foldlM_append] at h
    cases hmid : List.foldlM (fusionBody sqrtf eps scale_data bias_data mean_data variance_data)
        (cs0, cb0) (List.range n) with
    | error er => simp [hmid, bind, Except.bind] at h
    | ok mid =>
      have hn := ih hmid
      obtain ⟨cs, cb, hloop, hlcs, hlcb, -, -⟩ :=
        fusionLoop_prefix sqrtf eps scale_data bias_data mean_data variance_data cs0 cb0 n
          hn.1 hn.2.1 hn.2.2.1 hn.2.2.2.1 hn.2.2.2.2.1 hn.2.2.2.2.2
      have hmid2 : mid = (cs, cb) := by
        unfold fusionLoop at hloop
        rw [hmid] at hloop
        exact Except.ok.inj hloop
      subst hmid2
      simp only [hmid, bind, Except.bind, List.foldlM, pure, Except.pure] at h
      have hb : fusionBody sqrtf eps scale_data bias_data mean_data variance_data (cs, cb) n
          = .ok r := by
        cases hbody : fusionBody sqrtf eps scale_data bias_data mean_data variance_data
            (cs, cb) n with
        | error er => simp [hbody] at h
        | ok r2 => simp [hbody] at h; rw [h]
      have := fusionBody_ok_inv sqrtf eps hb
      simp only at this
      omega

theorem operator_of_found {α : Type} [Add α] [Sub α] [Mul α] [Div α]
    (sqrtf : α → α) (uninit : Nat → α) (engine_ : TensorRTEngine α)
    (op : OpDesc α) (scope : Scope α) (test_mode : Bool)
    {bias mean scale variance : DenseTensor α}
    (hb : scope.FindVar op.Bias = some bias) (hm : scope.FindVar op.Mean = some mean)
    (hs : scope.FindVar op.Scale = some scale)
    (hv : scope.FindVar op.Variance = some variance) :
    BatchNormOpConverter.operator sqrtf uninit engine_ op scope test_mode =
      match fusionLoop sqrtf op.epsilon scale.data bias.data mean.data variance.data
          scale.numel (mutable_data uninit scale.numel) (mutable_data uninit bias.numel) with
      | .ok p => .ok (emitLayers engine_ op test_mode (engine_.GetITensor op.X)
          { data := p.1 } { data := p.2 })
      | .error er => .error er := by
  have hlen : (mutable_data uninit scale.numel).length = scale.numel := by
    simp [mutable_data]
  simp only [BatchNormOpConverter.operator, hb, hm, hs, hv, PADDLE_ENFORCE_NOT_NULL,
    TensorCopySync, bind, Except.bind, memory_size_div, DenseTensor.numel, pure, Except.pure]
  simp only [DenseTensor.numel] at hlen
  rw [hlen]
  cases fusionLoop sqrtf op.epsilon scale.data bias.data mean.data variance.data
      scale.data.length (mutable_data uninit scale.data.length)
      (mutable_data uninit bias.data.length) <;> rfl

theorem operator_ok_of {α : Type} [Add α] [Sub α] [Mul α] [Div α]
    (sqrtf : α → α) (uninit : Nat → α) (engine_ : TensorRTEngine α)
    (op : OpDesc α) (scope : Scope α) (test_mode : Bool)
    {bias mean scale variance : DenseTensor α}
    (hb : scope.FindVar op.Bias = some bias) (hm : scope.FindVar op.Mean = some mean)
    (hs : scope.FindVar op.Scale = some scale)
    (hv : scope.FindVar op.Variance = some variance)
    (h1 : scale.numel ≤ bias.numel) (h2 : scale.numel ≤ mean.numel)
    (h3 : scale.numel ≤ variance.numel) :
    ∃ fs fb,
      fusionLoop sqrtf op.epsilon scale.data bias.data mean.data variance.data
          scale.numel (mutable_data uninit scale.numel) (mutable_data uninit bias.numel)
        = .ok (fs, fb)
      ∧ BatchNormOpConverter.operator sqrtf uninit engine_ op scope test_mode
        = .ok (emitLayers engine_ op test_mode (engine_.GetITensor op.X)
            { data := fs } { data := fb })
      ∧ fs.length = scale.numel ∧ fb.length = bias.numel
      ∧ (∀ i s b m v, i < scale.numel → scale.data[i]? = some s → bias.data[i]? = some b →
          mean.data[i]? = some m → variance.data[i]? = some v →
          fs[i]? = some (s / sqrtf (v + op.epsilon))
          ∧ fb[i]? = some (b - m * (s / sqrtf (v + op.epsilon)))) := by
  obtain ⟨fs, fb, hloop, hl1, hl2, hpt, -⟩ :=
    fusionLoop_prefix sqrtf op.epsilon scale.data bias.data mean.data variance.data
      (mutable_data uninit scale.numel) (mutable_data uninit bias.numel) scale.numel
      (Nat.le_refl _) h1 h2 h3 (by simp [mutable_data]) (by simpa [mutable_data] using h1)
  refine ⟨fs, fb, hloop, ?_, by simpa [mutable_data] using hl1,
    by simpa [mutable_data] using hl2, hpt⟩
  rw [operator_of_found sqrtf uninit engine_ op scope test_mode hb hm hs hv, hloop]

theorem operator_ok_inv {α : Type} [Add α] [Sub α] [Mul α] [Div α]
    (sqrtf : α → α) (uninit : Nat → α) (engine_ : TensorRTEngine α)
    (op : OpDesc α) (scope : Scope α) (test_mode : Bool) {e' : TensorRTEngine α}
    (h : BatchNormOpConverter.operator sqrtf uninit engine_ op scope test_mode = .ok e') :
    ∃ bias mean scale variance fs fb,
      scope.FindVar op.Bias = some bias ∧ scope.FindVar op.Mean = some mean
      ∧ scope.FindVar op.Scale = some scale ∧ scope.FindVar op.Variance = some variance
      ∧ scale.numel ≤ bias.numel ∧ scale.numel ≤ mean.numel ∧ scale.numel ≤ variance.numel
      ∧ fusionLoop sqrtf op.epsilon scale.data bias.data mean.data variance.data
          scale.numel (mutable_data uninit scale.numel) (mutable_data uninit bias.numel)
        = .ok (fs, fb)
      ∧ e' = emitLayers engine_ op test_mode (engine_.GetITensor op.X)
            { data := fs } { data := fb }
      ∧ fs.length = scale.numel ∧ fb.length = bias.numel
      ∧ (∀ i s b m v, i < scale.numel → scale.data[i]? = some s → bias.data[i]? = some b →
          mean.data[i]? = some m → variance.data[i]? = some v →
          fs[i]? = some (s / sqrtf (v + op.epsilon))
          ∧ fb[i]? = some (b - m * (s / sqrtf (v + op.epsilon)))) := by
  cases hb : scope.FindVar op.Bias with
  | none => simp [BatchNormOpConverter.operator, hb, PADDLE_ENFORCE_NOT_NULL, bind, Except.bind] at h
  | some bias =>
    cases hm : scope.FindVar op.Mean with
    | none =>
      simp [BatchNormOpConverter.operator, hb, hm, PADDLE_ENFORCE_NOT_NULL, bind, Except.bind] at h
    | some mean =>
      cases hs : scope.FindVar op.Scale with
      | none =>
        simp [BatchNormOpConverter.operator, hb, hm, hs, PADDLE_ENFORCE_NOT_NULL, bind,
          Except.bind] at h
      | some scale =>
        cases hv : scope.FindVar op.Variance with
        | none =>
          simp [BatchNormOpConverter.operator, hb, hm, hs, hv, PADDLE_ENFORCE_NOT_NULL, bind,
            Except.bind] at h
        | some variance =>
          rw [operator_of_found sqrtf uninit engine_ op scope test_mode hb hm hs hv] at h
          cases hloop : fusionLoop sqrtf op.epsilon scale.data bias.data mean.data
              variance.data scale.numel (mutable_data uninit scale.numel)
              (mutable_data uninit bias.numel) with
          | error er => rw [hloop] at h; cases h
          | ok r =>
            have hinv := fusionLoop_ok_inv sqrtf op.epsilon scale.data bias.data mean.data
              variance.data _ _ scale.numel hloop
            have h1 : scale.numel ≤ bias.numel := hinv.2.1
            have h2 : scale.numel ≤ mean.numel := hinv.2.2.1
            have h3 : scale.numel ≤ variance.numel := hinv.2.2.2.1
            obtain ⟨fs, fb, hloop2, hop, hl1, hl2, hpt⟩ :=
              operator_ok_of sqrtf uninit engine_ op scope test_mode hb hm hs hv h1 h2 h3
            rw [operator_of_found sqrtf uninit engine_ op scope test_mode hb hm hs hv] at hop
            rw [hop] at h
            exact ⟨bias, mean, scale, variance, fs, fb, rfl, rfl, rfl, rfl, h1, h2, h3, hloop2,
              (Except.ok.inj h).symm, hl1, hl2, hpt⟩

theorem getD_of_some {β : Type} {l : List β} {i : Nat} {x d : β} (h : l[i]? = some x) :
    l.getD i d = x := by
  simp [List.getD_eq_getElem?_getD, h]

theorem some_getD_of_lt {β : Type} {l : List β} {i : Nat} (d : β) (h : i < l.length) :
    l[i]? = some (l.getD i d) := by
  simp [List.getD_eq_getElem?_getD, List.getElem?_eq_getElem h]

theorem sqrt_three_add_one : Real.sqrt (3 + 1) = 2 := by
  have h : (3 : ℝ) + 1 = 2 ^ 2 := by norm_num
  rw [h, Real.sqrt_sq (by norm_num)]

theorem sample_fusionLoop (uninit : Nat → ℝ) :
    fusionLoop Real.sqrt 1 [2, 2, 2] [1, 1, 1] [0, 0, 0] [3, 3, 3] 3
      (mutable_data uninit 3) (mutable_data uninit 3) = .ok ([1, 1, 1], [1, 1, 1]) := by
  simp [fusionLoop, mutable_data, List.range_succ, fusionBody, readAt, writeAt, bind,
    Except.bind, pure, Except.pure, sqrt_three_add_one]

theorem sample_operator (uninit : Nat → ℝ) (x_dim : Dims) (test_mode : Bool) :
    BatchNormOpConverter.operator Real.sqrt uninit (sampleEngine ℝ x_dim) (sampleOp 1)
        (sampleScope [2, 2, 2] [1, 1, 1] [0, 0, 0] [3, 3, 3]) test_mode
      = .ok (emitLayers (sampleEngine ℝ x_dim) (sampleOp 1) test_mode (.external 0)
          { data := [1, 1, 1] } { data := [1, 1, 1] }) := by
  have hb : (sampleScope ([2, 2, 2] : List ℝ) [1, 1, 1] [0, 0, 0] [3, 3, 3]).FindVar
      (sampleOp (1 : ℝ)).Bias = some { data := [1, 1, 1] } := by rfl
  have hm : (sampleScope ([2, 2, 2] : List ℝ) [1, 1, 1] [0, 0, 0] [3, 3, 3]).FindVar
      (sampleOp (1 : ℝ)).Mean = some { data := [0, 0, 0] } := by rfl
  have hs : (sampleScope ([2, 2, 2] : List ℝ) [1, 1, 1] [0, 0, 0] [3, 3, 3]).FindVar
      (sampleOp (1 : ℝ)).Scale = some { data := [2, 2, 2] } := by rfl
  have hv : (sampleScope ([2, 2, 2] : List ℝ) [1, 1, 1] [0, 0, 0] [3, 3, 3]).FindVar
      (sampleOp (1 : ℝ)).Variance = some { data := [3, 3, 3] } := by rfl
  rw [operator_of_found Real.sqrt uninit _ _ _ test_mode hb hm hs hv]
  have hl := sample_fusionLoop uninit
  simp only [DenseTensor.numel, List.length, sampleOp] at hl ⊢
  rw [hl]
  rfl

theorem fused_values_real (uninit : Nat → ℝ) (engine_ : TensorRTEngine ℝ)
    (op : OpDesc ℝ) (scope : Scope ℝ) (test_mode : Bool)
    (bias mean scale variance : DenseTensor ℝ) (N : Nat)
    (hb : scope.FindVar op.Bias = some bias) (hm : scope.FindVar op.Mean = some mean)
    (hs : scope.FindVar op.Scale = some scale)
    (hv : scope.FindVar op.Variance = some variance)
    (hNs : scale.numel = N) (hNb : bias.numel = N) (hNm : mean.numel = N)
    (hNv : variance.numel = N) :
    ∃ fs fb : List ℝ,
      fusionLoop Real.sqrt op.epsilon scale.data bias.data mean.data variance.data N
          (mutable_data uninit N) (mutable_data uninit N) = .ok (fs, fb)
      ∧ BatchNormOpConverter.operator Real.sqrt uninit engine_ op scope test_mode
        = .ok (emitLayers engine_ op test_mode (engine_.GetITensor op.X)
            { data := fs } { data := fb })
      ∧ fs.length = N ∧ fb.length = N
      ∧ ∀ i, i < N →
          fs.getD i 0 = scale.data.getD i 0 / Real.sqrt (variance.data.getD i 0 + op.epsilon)
          ∧ fb.getD i 0 = bias.data.getD i 0 - mean.data.getD i 0 * fs.getD i 0 := by
  obtain ⟨fs, fb, hloop, hop, hl1, hl2, hpt⟩ :=
    operator_ok_of Real.sqrt uninit engine_ op scope test_mode hb hm hs hv
      (by omega) (by omega) (by omega)
  rw [hNs, hNb] at hloop
  refine ⟨fs, fb, hloop, hop, by omega, by omega, ?_⟩
  intro i hi
  have h := hpt i (scale.data.getD i 0) (bias.data.getD i 0) (mean.data.getD i 0)
    (variance.data.getD i 0) (by omega)
    (some_getD_of_lt 0 (by simp only [DenseTensor.numel] at hNs; omega))
    (some_getD_of_lt 0 (by simp only [DenseTensor.numel] at hNb; omega))
    (some_getD_of_lt 0 (by simp only [DenseTensor.numel] at hNm; omega))
    (some_getD_of_lt 0 (by simp only [DenseTensor.numel] at hNv; omega))
  rw [getD_of_some h.1, getD_of_some h.2]
  exact ⟨rfl, rfl⟩

/-! ## Fusion arithmetic -/

/-- C1: when the four parameter tensors are found and share the element count
`N`, the conversion succeeds and its fusion loop yields two buffers of `N`
elements with `fused_scale[i] = scale[i] / sqrt(variance[i] + eps)` and
`fused_bias[i] = bias[i] - mean[i] * fused_scale[i]` for every `i < N`, the
arithmetic being that of the reals. -/
theorem C1_fusion_formula (uninit : Nat → ℝ) (engine_ : TensorRTEngine ℝ)
    (op : OpDesc ℝ) (scope : Scope ℝ) (test_mode : Bool)
    (bias mean scale variance : DenseTensor ℝ) (N : Nat)
    (hb : scope.FindVar op.Bias = some bias) (hm : scope.FindVar op.Mean = some mean)
    (hs : scope.FindVar op.Scale = some scale)
    (hv : scope.FindVar op.Variance = some variance)
    (hNs : scale.numel = N) (hNb : bias.numel = N) (hNm : mean.numel = N)
    (hNv : variance.numel = N) :
    ∃ fused_scale fused_bias : List ℝ,
      fusionLoop Real.sqrt op.epsilon scale.data bias.data mean.data variance.data N
          (mutable_data uninit N) (mutable_data uninit N) = .ok (fused_scale, fused_bias)
      ∧ BatchNormOpConverter.operator Real.sqrt uninit engine_ op scope test_mode
        = .ok (emitLayers engine_ op test_mode (engine_.GetITensor op.X)
            { data := fused_scale } { data := fused_bias })
      ∧ fused_scale.length = N ∧ fused_bias.length = N
      ∧ ∀ i, i < N →
          fused_scale.getD i 0
            = scale.data.getD i 0 / Real.sqrt (variance.data.getD i 0 + op.epsilon)
          ∧ fused_bias.getD i 0
            = bias.data.getD i 0 - mean.data.getD i 0 * fused_scale.getD i 0 :=
  fused_values_real uninit engine_ op scope test_mode bias mean scale variance N
    hb hm hs hv hNs hNb hNm hNv

/-- C1 at `N = 3`, `scale = [2,2,2]`, `bias = [1,1,1]`, `mean = [0,0,0]`,
`variance = [3,3,3]`, `eps = 1`: the loop yields `[1,1,1]` and `[1,1,1]`. -/
theorem C1_fusion_formula_witness :
    fusionLoop Real.sqrt 1 [2, 2, 2] [1, 1, 1] [0, 0, 0] [3, 3, 3] 3
        (mutable_data (fun _ => 0) 3) (mutable_data (fun _ => 0) 3)
      = .ok ([1, 1, 1], [1, 1, 1])
    ∧ ∃ fused_scale fused_bias : List ℝ,
      fusionLoop Real.sqrt (sampleOp (1 : ℝ)).epsilon [2, 2, 2] [1, 1, 1] [0, 0, 0] [3, 3, 3] 3
          (mutable_data (fun _ => 0) 3) (mutable_data (fun _ => 0) 3)
        = .ok (fused_scale, fused_bias)
      ∧ BatchNormOpConverter.operator Real.sqrt (fun _ => 0) (sampleEngine ℝ [1, 3, 2, 2])
          (sampleOp 1) (sampleScope [2, 2, 2] [1, 1, 1] [0, 0, 0] [3, 3, 3]) false
        = .ok (emitLayers (sampleEngine ℝ [1, 3, 2, 2]) (sampleOp 1) false
            ((sampleEngine ℝ [1, 3, 2, 2]).GetITensor (sampleOp (1 : ℝ)).X)
            { data := fused_scale } { data := fused_bias })
      ∧ fused_scale.length = 3 ∧ fused_bias.length = 3
      ∧ ∀ i, i < 3 →
          fused_scale.getD i 0
            = ([2, 2, 2] : List ℝ).getD i 0
              / Real.sqrt (([3, 3, 3] : List ℝ).getD i 0 + (sampleOp (1 : ℝ)).epsilon)
          ∧ fused_bias.getD i 0
            = ([1, 1, 1] : List ℝ).getD i 0
              - ([0, 0, 0] : List ℝ).getD i 0 * fused_scale.getD i 0 :=
  ⟨sample_fusionLoop _,
   C1_fusion_formula (fun _ => 0) (sampleEngine ℝ [1, 3, 2, 2]) (sampleOp 1)
    (sampleScope [2, 2, 2] [1, 1, 1] [0, 0, 0] [3, 3, 3]) false
    { data := [1, 1, 1] } { data := [0, 0, 0] } { data := [2, 2, 2] } { data := [3, 3, 3] } 3
    rfl rfl rfl rfl rfl rfl rfl rfl⟩

/-- C2: for a channel `i` with `variance[i] + eps > 0` and any input value `x`,
the affine transform with the converter's fused coefficients,
`x * fused_scale[i] + fused_bias[i]`, equals the unfused reference
`(x - mean[i]) / sqrt(variance[i] + eps) * scale[i] + bias[i]` over the reals;
the fused coefficients are the ones bound to the emitted scale layer. -/
theorem C2_affine_equals_reference (uninit : Nat → ℝ) (engine_ : TensorRTEngine ℝ)
    (op : OpDesc ℝ) (scope : Scope ℝ) (test_mode : Bool)
    (bias mean scale variance : DenseTensor ℝ) (N : Nat)
    (hb : scope.FindVar op.Bias = some bias) (hm : scope.FindVar op.Mean = some mean)
    (hs : scope.FindVar op.Scale = some scale)
    (hv : scope.FindVar op.Variance = some variance)
    (hNs : scale.numel = N) (hNb : bias.numel = N) (hNm : mean.numel = N)
    (hNv : variance.numel = N)
    (i : Nat) (hi : i < N) (x : ℝ) (hpos : 0 < variance.data.getD i 0 + op.epsilon) :
    ∃ (e' : TensorRTEngine ℝ) (fused_scale fused_bias : List ℝ) (affine : ILayer ℝ),
      BatchNormOpConverter.operator Real.sqrt uninit engine_ op scope test_mode = .ok e'
      ∧ affine ∈ e'.layers.drop engine_.layers.length
      ∧ affine.kind = .ScaleNd .kCHANNEL
          { type := .kFLOAT, values := some fused_bias, count := N }
          { type := .kFLOAT, values := some fused_scale, count := N }
          { type := .kFLOAT, values := none, count := 0 } 1
      ∧ x * fused_scale.getD i 0 + fused_bias.getD i 0
        = (x - mean.data.getD i 0) / Real.sqrt (variance.data.getD i 0 + op.epsilon)
            * scale.data.getD i 0 + bias.data.getD i 0 := by
  obtain ⟨fs, fb, -, hop, hl1, hl2, hpt⟩ :=
    fused_values_real uninit engine_ op scope test_mode bias mean scale variance N
      hb hm hs hv hNs hNb hNm hNv
  obtain ⟨h1, h2⟩ := hpt i hi
  have hsq : Real.sqrt (variance.data.getD i 0 + op.epsilon) ≠ 0 :=
    ne_of_gt (Real.sqrt_pos.2 hpos)
  by_cases hr : (engine_.getDimensions (engine_.GetITensor op.X)).nbDims < 4
  · refine ⟨_, fs, fb,
      { kind := .ScaleNd .kCHANNEL
          { type := .kFLOAT, values := some fb, count := N }
          { type := .kFLOAT, values := some fs, count := N }
          { type := .kFLOAT, values := none, count := 0 } 1,
        input := getOutput engine_.layers.length 0,
        name := "BN: ScaleNd: (Output: " ++ op.Y ++ ")" }, hop, ?_, rfl, ?_⟩
    · rw [emitLayers_layers_lt _ _ _ _ _ _ hr]
      simp [DenseTensor.numel, hl1, hl2]
    · rw [h2, h1]; field_simp; ring
  · refine ⟨_, fs, fb,
      { kind := .ScaleNd .kCHANNEL
          { type := .kFLOAT, values := some fb, count := N }
          { type := .kFLOAT, values := some fs, count := N }
          { type := .kFLOAT, values := none, count := 0 } 1,
        input := engine_.GetITensor op.X, name := "" }, hop, ?_, rfl, ?_⟩
    · rw [emitLayers_layers_ge _ _ _ _ _ _ hr]
      simp [DenseTensor.numel, hl1, hl2]
    · rw [h2, h1]; field_simp; ring

/-- C2 at the three-channel sample, channel `1`, input value `5`. -/
theorem C2_affine_equals_reference_witness :
    (1 < 3 ∧ 0 < ([3, 3, 3] : List ℝ).getD 1 0 + (sampleOp (1 : ℝ)).epsilon)
    ∧ ∃ (e' : TensorRTEngine ℝ) (fused_scale fused_bias : List ℝ) (affine : ILayer ℝ),
      BatchNormOpConverter.operator Real.sqrt (fun _ => 0) (sampleEngine ℝ [1, 3, 2, 2])
          (sampleOp 1) (sampleScope [2, 2, 2] [1, 1, 1] [0, 0, 0] [3, 3, 3]) false = .ok e'
      ∧ affine ∈ e'.layers.drop (sampleEngine ℝ [1, 3, 2, 2]).layers.length
      ∧ affine.kind = .ScaleNd .kCHANNEL
          { type := .kFLOAT, values := some fused_bias, count := 3 }
          { type := .kFLOAT, values := some fused_scale, count := 3 }
          { type := .kFLOAT, values := none, count := 0 } 1
      ∧ 5 * fused_scale.getD 1 0 + fused_bias.getD 1 0
        = (5 - ([0, 0, 0] : List ℝ).getD 1 0)
            / Real.sqrt (([3, 3, 3] : List ℝ).getD 1 0 + (sampleOp (1 : ℝ)).epsilon)
            * ([2, 2, 2] : List ℝ).getD 1 0 + ([1, 1, 1] : List ℝ).getD 1 0 :=
  ⟨⟨by decide, by simp [sampleOp]; norm_num⟩,
   C2_affine_equals_reference (fun _ => 0) (sampleEngine ℝ [1, 3, 2, 2]) (sampleOp 1)
    (sampleScope [2, 2, 2] [1, 1, 1] [0, 0, 0] [3, 3, 3]) false
    { data := [1, 1, 1] } { data := [0, 0, 0] } { data := [2, 2, 2] } { data := [3, 3, 3] } 3
    rfl rfl rfl rfl rfl rfl rfl rfl 1 (by decide) 5 (by simp [sampleOp]; norm_num)⟩

/-! ## Missing parameters -/

theorem notFoundMessage_injective (p q : Param) (h : notFoundMessage p = notFoundMessage q) :
    p = q := by
  cases p <;> cases q <;> first | rfl | (exact absurd h (by decide))

/-- C3: when some parameter input `p` is absent from the store, the conversion
fails with a not-found error whose message names an absent parameter input;
when `p` is the only absent one the message names `p`; and messages of
different parameter inputs differ. -/
theorem C3_missing_parameter {α : Type} [Add α] [Sub α] [Mul α] [Div α]
    (sqrtf : α → α) (uninit : Nat → α) (engine_ : TensorRTEngine α)
    (op : OpDesc α) (scope : Scope α) (test_mode : Bool) (p : Param)
    (hp : scope.FindVar (op.Input p) = none) :
    (∃ q, scope.FindVar (op.Input q) = none
        ∧ BatchNormOpConverter.operator sqrtf uninit engine_ op scope test_mode
          = .error (.NotFound (notFoundMessage q)))
    ∧ ((∀ q, q ≠ p → scope.FindVar (op.Input q) ≠ none) →
        BatchNormOpConverter.operator sqrtf uninit engine_ op scope test_mode
          = .error (.NotFound (notFoundMessage p)))
    ∧ (∀ q q', notFoundMessage q = notFoundMessage q' → q = q')
    ∧ notFoundMessage p
        = "Variable of " ++ p.roleName ++ " of batch_norm TRT converter is not found." := by
  have first : ∃ q, scope.FindVar (op.Input q) = none
      ∧ BatchNormOpConverter.operator sqrtf uninit engine_ op scope test_mode
          = .error (.NotFound (notFoundMessage q)) := by
    cases hB : scope.FindVar op.Bias with
    | none =>
      exact ⟨.Bias, hB, by
        simp [BatchNormOpConverter.operator, hB, PADDLE_ENFORCE_NOT_NULL, bind, Except.bind,
          notFoundMessage, Param.roleName]⟩
    | some bias =>
      cases hM : scope.FindVar op.Mean with
      | none =>
        exact ⟨.Mean, hM, by
          simp [BatchNormOpConverter.operator, hB, hM, PADDLE_ENFORCE_NOT_NULL, bind,
            Except.bind, notFoundMessage, Param.roleName]⟩
      | some mean =>
        cases hS : scope.FindVar op.Scale with
        | none =>
          exact ⟨.Scale, hS, by
            simp [BatchNormOpConverter.operator, hB, hM, hS, PADDLE_ENFORCE_NOT_NULL, bind,
              Except.bind, notFoundMessage, Param.roleName]⟩
        | some scale =>
          cases hV : scope.FindVar op.Variance with
          | none =>
            exact ⟨.Variance, hV, by
              simp [BatchNormOpConverter.operator, hB, hM, hS, hV, PADDLE_ENFORCE_NOT_NULL,
                bind, Except.bind, notFoundMessage, Param.roleName]⟩
          | some variance =>
            cases p <;> simp [OpDesc.Input, hB, hM, hS, hV] at hp
  obtain ⟨q, hq, hop⟩ := first
  refine ⟨⟨q, hq, hop⟩, ?_, notFoundMessage_injective, rfl⟩
  intro honly
  by_cases hqp : q = p
  · rw [← hqp]; exact hop
  · exact absurd hq (honly q hqp)

/-- C3 at a store that holds Scale, Bias and Variance but not Mean: the error
names Mean. -/
theorem C3_missing_parameter_witness :
    (sampleScopeNoMean ([2] : List ℝ) [1] [3]).FindVar ((sampleOp (1 : ℝ)).Input .Mean) = none
    ∧ (∀ q, q ≠ Param.Mean →
        (sampleScopeNoMean ([2] : List ℝ) [1] [3]).FindVar ((sampleOp (1 : ℝ)).Input q) ≠ none)
    ∧ BatchNormOpConverter.operator Real.sqrt (fun _ => 0) (sampleEngine ℝ [1, 3, 2, 2])
          (sampleOp 1) (sampleScopeNoMean [2] [1] [3]) false
        = .error (.NotFound "Variable of Mean of batch_norm TRT converter is not found.") :=
  have only : ∀ q, q ≠ Param.Mean →
      (sampleScopeNoMean ([2] : List ℝ) [1] [3]).FindVar ((sampleOp (1 : ℝ)).Input q) ≠ none := by
    intro q hq
    cases q <;>
      simp [Scope.FindVar, sampleScopeNoMean, sampleOp, OpDesc.Input, List.lookup] at hq ⊢
  ⟨rfl, only,
   (C3_missing_parameter Real.sqrt (fun _ => 0) (sampleEngine ℝ [1, 3, 2, 2]) (sampleOp 1)
      (sampleScopeNoMean [2] [1] [3]) false .Mean rfl).2.1 only⟩

/-! ## Shapes -/

theorem squeeze_shape_nbDims (x_dim : Dims) :
    (squeeze_shape x_dim).nbDims = x_dim.nbDims := by
  simp [squeeze_shape, Dims.nbDims]

theorem squeeze_shape_d (x_dim : Dims) (i : Nat) (h : i < x_dim.nbDims) :
    (squeeze_shape x_dim).d i = if x_dim.d i < 0 then 0 else x_dim.d i := by
  simp [squeeze_shape, Dims.d, List.getD_eq_getElem?_getD, List.getElem?_map,
    List.getElem?_range h]

theorem expand_shape_nbDims (x_dim : Dims) : (expand_shape x_dim).nbDims = 4 := by
  simp [expand_shape, Dims.nbDims]

theorem expand_shape_d (x_dim : Dims) (i : Nat) (h : i < 4) :
    (expand_shape x_dim).d i =
      if i < x_dim.nbDims then (if x_dim.d i < 0 then 0 else x_dim.d i) else 1 := by
  simp [expand_shape, Dims.d, List.getD_eq_getElem?_getD, List.getElem?_map,
    List.getElem?_range h]

theorem squeeze_shape_known (x_dim : Dims) (h : ∀ i, i < x_dim.nbDims → 0 ≤ x_dim.d i) :
    squeeze_shape x_dim = x_dim := by
  apply List.ext_getElem?
  intro i
  by_cases hi : i < x_dim.nbDims
  · have h1 := squeeze_shape_d x_dim i hi
    have h2 := h i hi
    have h3 : ¬ x_dim.d i < 0 := by omega
    rw [if_neg h3] at h1
    have hl : i < (squeeze_shape x_dim).length := by
      have := squeeze_shape_nbDims x_dim
      simp only [Dims.nbDims] at this hi
      omega
    simp only [Dims.d, Dims.nbDims] at h1 hi
    rw [some_getD_of_lt 0 hl, some_getD_of_lt 0 hi, h1]
  · have hl : ¬ i < (squeeze_shape x_dim).length := by
      have := squeeze_shape_nbDims x_dim
      simp only [Dims.nbDims] at this hi
      omega
    simp only [Dims.nbDims] at hi
    rw [List.getElem?_eq_none (Nat.le_of_not_lt hl), List.getElem?_eq_none (Nat.le_of_not_lt hi)]

/-! ## Unequal element counts -/

/-- C4 fails as stated: with a Scale tensor of one element and Bias, Mean and
Variance tensors of two elements each, the conversion does not fail; it
succeeds and registers a fused bias tensor of two elements and a fused scale
tensor of one element. -/
theorem C4_counterexample :
    (DenseTensor.mk ([2] : List ℝ)).numel ≠ (DenseTensor.mk ([1, 1] : List ℝ)).numel
    ∧ Except.isOk (BatchNormOpConverter.operator Real.sqrt (fun _ => 0)
        (sampleEngine ℝ [1, 3, 2, 2]) (sampleOp 1)
        (sampleScope [2] [1, 1] [0, 0] [3, 3]) false) = true
    ∧ Except.map (fun e => e.weight_map.map fun w => (w.1, w.2.numel))
        (BatchNormOpConverter.operator Real.sqrt (fun _ => 0)
          (sampleEngine ℝ [1, 3, 2, 2]) (sampleOp 1)
          (sampleScope [2] [1, 1] [0, 0] [3, 3]) false)
      = .ok [("bn_bias", 2), ("bn_scale", 1)] := by
  have hb : (sampleScope ([2] : List ℝ) [1, 1] [0, 0] [3, 3]).FindVar
      (sampleOp (1 : ℝ)).Bias = some { data := [1, 1] } := by rfl
  have hm : (sampleScope ([2] : List ℝ) [1, 1] [0, 0] [3, 3]).FindVar
      (sampleOp (1 : ℝ)).Mean = some { data := [0, 0] } := by rfl
  have hs : (sampleScope ([2] : List ℝ) [1, 1] [0, 0] [3, 3]).FindVar
      (sampleOp (1 : ℝ)).Scale = some { data := [2] } := by rfl
  have hv : (sampleScope ([2] : List ℝ) [1, 1] [0, 0] [3, 3]).FindVar
      (sampleOp (1 : ℝ)).Variance = some { data := [3, 3] } := by rfl
  obtain ⟨fs, fb, -, hop, hl1, hl2, -⟩ :=
    operator_ok_of Real.sqrt (fun _ => 0) (sampleEngine ℝ [1, 3, 2, 2]) (sampleOp 1)
      (sampleScope [2] [1, 1] [0, 0] [3, 3]) false hb hm hs hv
      (by simp [DenseTensor.numel]) (by simp [DenseTensor.numel])
      (by simp [DenseTensor.numel])
  rw [hop]
  refine ⟨by simp [DenseTensor.numel], rfl, ?_⟩
  simp only [DenseTensor.numel, List.length] at hl1 hl2
  simp [Except.map, emitLayers_weight_map, sampleEngine, sampleOp, DenseTensor.numel, hl1, hl2]

/-- C4 as amended: the converter compares no element counts.  Whenever the
four parameter tensors are found and the element counts of Bias, Mean and
Variance are each at least that of Scale, equal or not, the conversion
succeeds; the fused scale buffer has as many elements as Scale, the fused bias
buffer as many as Bias, and for every index below the element count of Scale
the two fused values are the ones of the fusion formula. -/
theorem C4_unequal_counts {α : Type} [Add α] [Sub α] [Mul α] [Div α]
    (sqrtf : α → α) (uninit : Nat → α) (engine_ : TensorRTEngine α)
    (op : OpDesc α) (scope : Scope α) (test_mode : Bool)
    (bias mean scale variance : DenseTensor α)
    (hb : scope.FindVar op.Bias = some bias) (hm : scope.FindVar op.Mean = some mean)
    (hs : scope.FindVar op.Scale = some scale)
    (hv : scope.FindVar op.Variance = some variance)
    (h1 : scale.numel ≤ bias.numel) (h2 : scale.numel ≤ mean.numel)
    (h3 : scale.numel ≤ variance.numel) :
    ∃ fused_scale fused_bias : List α,
      BatchNormOpConverter.operator sqrtf uninit engine_ op scope test_mode
        = .ok (emitLayers engine_ op test_mode (engine_.GetITensor op.X)
            { data := fused_scale } { data := fused_bias })
      ∧ fused_scale.length = scale.numel ∧ fused_bias.length = bias.numel
      ∧ ∀ i s b m v, i < scale.numel → scale.data[i]? = some s → bias.data[i]? = some b →
          mean.data[i]? = some m → variance.data[i]? = some v →
          fused_scale[i]? = some (s / sqrtf (v + op.epsilon))
          ∧ fused_bias[i]? = some (b - m * (s / sqrtf (v + op.epsilon))) := by
  obtain ⟨fs, fb, -, hop, hl1, hl2, hpt⟩ :=
    operator_ok_of sqrtf uninit engine_ op scope test_mode hb hm hs hv h1 h2 h3
  exact ⟨fs, fb, hop, hl1, hl2, hpt⟩

/-- C4 as amended, at a Scale tensor of one element and Bias, Mean and
Variance tensors of two elements each. -/
theorem C4_unequal_counts_witness :
    ((DenseTensor.mk ([2] : List ℝ)).numel ≤ (DenseTensor.mk ([1, 1] : List ℝ)).numel
      ∧ (DenseTensor.mk ([2] : List ℝ)).numel ≤ (DenseTensor.mk ([0, 0] : List ℝ)).numel
      ∧ (DenseTensor.mk ([2] : List ℝ)).numel ≤ (DenseTensor.mk ([3, 3] : List ℝ)).numel)
    ∧ ∃ fused_scale fused_bias : List ℝ,
      BatchNormOpConverter.operator Real.sqrt (fun _ => 0) (sampleEngine ℝ [1, 3, 2, 2])
          (sampleOp 1) (sampleScope [2] [1, 1] [0, 0] [3, 3]) false
        = .ok (emitLayers (sampleEngine ℝ [1, 3, 2, 2]) (sampleOp 1) false
            ((sampleEngine ℝ [1, 3, 2, 2]).GetITensor (sampleOp (1 : ℝ)).X)
            { data := fused_scale } { data := fused_bias })
      ∧ fused_scale.length = (DenseTensor.mk ([2] : List ℝ)).numel
      ∧ fused_bias.length = (DenseTensor.mk ([1, 1] : List ℝ)).numel
      ∧ ∀ i s b m v, i < (DenseTensor.mk ([2] : List ℝ)).numel →
          ([2] : List ℝ)[i]? = some s → ([1, 1] : List ℝ)[i]? = some b →
          ([0, 0] : List ℝ)[i]? = some m → ([3, 3] : List ℝ)[i]? = some v →
          fused_scale[i]? = some (s / Real.sqrt (v + (sampleOp (1 : ℝ)).epsilon))
          ∧ fused_bias[i]? = some (b - m * (s / Real.sqrt (v + (sampleOp (1 : ℝ)).epsilon))) :=
  ⟨⟨by decide, by decide, by decide⟩,
   C4_unequal_counts Real.sqrt (fun _ => 0) (sampleEngine ℝ [1, 3, 2, 2]) (sampleOp 1)
    (sampleScope [2] [1, 1] [0, 0] [3, 3]) false
    { data := [1, 1] } { data := [0, 0] } { data := [2] } { data := [3, 3] }
    rfl rfl rfl rfl (by decide) (by decide) (by decide)⟩

/-! ## Rank adaptation -/

/-- C5 fails as stated: for the input shape `[-1, 3]`, whose first extent is
unknown, the shape set on the restoring shuffle layer is `[0, 3]`, not
`[-1, 3]`. -/
theorem C5_counterexample :
    (sampleEngine ℝ [-1, 3]).getDimensions
        ((sampleEngine ℝ [-1, 3]).GetITensor (sampleOp (1 : ℝ)).X) = [-1, 3]
    ∧ Except.map (fun e => e.layers.map ILayer.getReshapeDimensions)
        (BatchNormOpConverter.operator Real.sqrt (fun _ => 0) (sampleEngine ℝ [-1, 3])
          (sampleOp 1) (sampleScope [2, 2, 2] [1, 1, 1] [0, 0, 0] [3, 3, 3]) false)
      = .ok [some [0, 3, 1, 1], none, some [0, 3]]
    ∧ ([0, 3] : Dims) ≠ [-1, 3] := by
  refine ⟨rfl, ?_, by decide⟩
  rw [sample_operator]
  have hr : ((sampleEngine ℝ [-1, 3]).getDimensions (.external 0)).nbDims < 4 := by decide
  simp only [Except.map, emitLayers_layers_lt _ _ _ _ _ _ hr]
  rfl

/-- C5 as amended: for an input shape of rank `r < 4`, the shape set on the
restoring shuffle layer, whose output is bound to the declared output name, has
rank `r`, keeps every known (non-negative) extent, and has extent `0` where the
input extent is unknown (negative); it equals the input shape when every extent
is known. -/
theorem C5_restore_shape {α : Type} [Add α] [Sub α] [Mul α] [Div α]
    (sqrtf : α → α) (uninit : Nat → α) (engine_ : TensorRTEngine α)
    (op : OpDesc α) (scope : Scope α) (test_mode : Bool) (e' : TensorRTEngine α)
    (x_dim : Dims)
    (h : BatchNormOpConverter.operator sqrtf uninit engine_ op scope test_mode = .ok e')
    (hx : engine_.getDimensions (engine_.GetITensor op.X) = x_dim)
    (hr : x_dim.nbDims < 4) :
    ∃ (squeeze_layer : ILayer α) (target : Dims),
      e'.layers.drop (engine_.layers.length + 2) = [squeeze_layer]
      ∧ squeeze_layer.kind = .Shuffle (some target)
      ∧ e'.itensor_map op.Y = getOutput (engine_.layers.length + 2) 0
      ∧ target.nbDims = x_dim.nbDims
      ∧ (∀ i, i < x_dim.nbDims →
          (0 ≤ x_dim.d i → target.d i = x_dim.d i) ∧ (x_dim.d i < 0 → target.d i = 0))
      ∧ ((∀ i, i < x_dim.nbDims → 0 ≤ x_dim.d i) → target = x_dim) := by
  obtain ⟨bias, mean, scale, variance, fs, fb, -, -, -, -, -, -, -, -, he, -, -, -⟩ :=
    operator_ok_inv sqrtf uninit engine_ op scope test_mode h
  have hr2 : (engine_.getDimensions (engine_.GetITensor op.X)).nbDims < 4 := by rw [hx]; exact hr
  refine ⟨{ kind := .Shuffle (some (squeeze_shape x_dim)),
            input := getOutput (engine_.layers.length + 1) 0, name := "" },
    squeeze_shape x_dim, ?_, rfl, ?_, squeeze_shape_nbDims x_dim, ?_,
    squeeze_shape_known x_dim⟩
  · rw [he, emitLayers_layers_lt _ _ _ _ _ _ hr2, hx]
    simp
  · rw [he, emitLayers_itensor_map, if_pos hr2]
  · intro i hi
    rw [squeeze_shape_d x_dim i hi]
    constructor
    · intro h0
      rw [if_neg (by omega)]
    · intro h0
      rw [if_pos h0]

/-- C5 as amended, at the input shape `[-1, 3]`. -/
theorem C5_restore_shape_witness :
    ((sampleEngine ℝ [-1, 3]).getDimensions
        ((sampleEngine ℝ [-1, 3]).GetITensor (sampleOp (1 : ℝ)).X) = [-1, 3]
      ∧ Dims.nbDims [-1, 3] < 4)
    ∧ ∃ (squeeze_layer : ILayer ℝ) (target : Dims),
      (emitLayers (sampleEngine ℝ [-1, 3]) (sampleOp 1) false (.external 0)
          { data := [1, 1, 1] } { data := [1, 1, 1] }).layers.drop
          ((sampleEngine ℝ [-1, 3]).layers.length + 2) = [squeeze_layer]
      ∧ squeeze_layer.kind = .Shuffle (some target)
      ∧ (emitLayers (sampleEngine ℝ [-1, 3]) (sampleOp 1) false (.external 0)
          { data := [1, 1, 1] } { data := [1, 1, 1] }).itensor_map (sampleOp (1 : ℝ)).Y
        = getOutput ((sampleEngine ℝ [-1, 3]).layers.length + 2) 0
      ∧ target.nbDims = Dims.nbDims [-1, 3]
      ∧ (∀ i, i < Dims.nbDims [-1, 3] →
          (0 ≤ Dims.d [-1, 3] i → target.d i = Dims.d [-1, 3] i)
          ∧ (Dims.d [-1, 3] i < 0 → target.d i = 0))
      ∧ ((∀ i, i < Dims.nbDims [-1, 3] → 0 ≤ Dims.d [-1, 3] i) → target = [-1, 3]) :=
  ⟨⟨rfl, by decide⟩,
   C5_restore_shape Real.sqrt (fun _ => 0) (sampleEngine ℝ [-1, 3]) (sampleOp 1)
    (sampleScope [2, 2, 2] [1, 1, 1] [0, 0, 0] [3, 3, 3]) false _ [-1, 3]
    (sample_operator _ _ _) rfl (by decide)⟩

/-- C6 fails as stated: for the input shape `[-1, 3]` the shape set on the
expanding shuffle layer is `[0, 3, 1, 1]`; its extent at position `0` is the
fixed value `0`, not the unknown extent `-1` of the input. -/
theorem C6_counterexample :
    (sampleEngine ℝ [-1, 3]).getDimensions
        ((sampleEngine ℝ [-1, 3]).GetITensor (sampleOp (1 : ℝ)).X) = [-1, 3]
    ∧ Except.map (fun e => e.layers.head?.bind ILayer.getReshapeDimensions)
        (BatchNormOpConverter.operator Real.sqrt (fun _ => 0) (sampleEngine ℝ [-1, 3])
          (sampleOp 1) (sampleScope [2, 2, 2] [1, 1, 1] [0, 0, 0] [3, 3, 3]) true)
      = .ok (some [0, 3, 1, 1])
    ∧ Dims.d [0, 3, 1, 1] 0 ≠ Dims.d [-1, 3] 0 := by
  refine ⟨rfl, ?_, by decide⟩
  rw [sample_operator]
  have hr : ((sampleEngine ℝ [-1, 3]).getDimensions (.external 0)).nbDims < 4 := by decide
  simp only [Except.map, emitLayers_layers_lt _ _ _ _ _ _ hr]
  rfl

/-- C6 as amended: for an input shape of rank `r < 4`, the shape set on the
expanding shuffle layer has rank `4`; at each position `i < r` it keeps a known
(non-negative) extent and has extent `0` where the input extent is unknown
(negative); at each position `i` with `r <= i < 4` its extent is `1`. -/
theorem C6_expand_shape {α : Type} [Add α] [Sub α] [Mul α] [Div α]
    (sqrtf : α → α) (uninit : Nat → α) (engine_ : TensorRTEngine α)
    (op : OpDesc α) (scope : Scope α) (test_mode : Bool) (e' : TensorRTEngine α)
    (x_dim : Dims)
    (h : BatchNormOpConverter.operator sqrtf uninit engine_ op scope test_mode = .ok e')
    (hx : engine_.getDimensions (engine_.GetITensor op.X) = x_dim)
    (hr : x_dim.nbDims < 4) :
    ∃ (expand_layer : ILayer α) (target : Dims),
      (e'.layers.drop engine_.layers.length).head? = some expand_layer
      ∧ expand_layer.kind = .Shuffle (some target)
      ∧ expand_layer.input = engine_.GetITensor op.X
      ∧ target.nbDims = 4
      ∧ (∀ i, i < x_dim.nbDims →
          (0 ≤ x_dim.d i → target.d i = x_dim.d i) ∧ (x_dim.d i < 0 → target.d i = 0))
      ∧ (∀ i, x_dim.nbDims ≤ i → i < 4 → target.d i = 1) := by
  obtain ⟨bias, mean, scale, variance, fs, fb, -, -, -, -, -, -, -, -, he, -, -, -⟩ :=
    operator_ok_inv sqrtf uninit engine_ op scope test_mode h
  have hr2 : (engine_.getDimensions (engine_.GetITensor op.X)).nbDims < 4 := by rw [hx]; exact hr
  refine ⟨{ kind := .Shuffle (some (expand_shape x_dim)), input := engine_.GetITensor op.X,
            name := "BN_Shuffle: (Output: " ++ op.Y ++ ")" },
    expand_shape x_dim, ?_, rfl, rfl, expand_shape_nbDims x_dim, ?_, ?_⟩
  · rw [he, emitLayers_layers_lt _ _ _ _ _ _ hr2, hx]
    simp
  · intro i hi
    rw [expand_shape_d x_dim i (by omega), if_pos hi]
    constructor
    · intro h0
      rw [if_neg (by omega)]
    · intro h0
      rw [if_pos h0]
  · intro i hi h4
    rw [expand_shape_d x_dim i h4, if_neg (by omega)]

/-- C6 as amended, at the rank-2 input shape `[8, 3]`, which expands to
`[8, 3, 1, 1]`. -/
theorem C6_expand_shape_witness :
    ((sampleEngine ℝ [8, 3]).getDimensions
        ((sampleEngine ℝ [8, 3]).GetITensor (sampleOp (1 : ℝ)).X) = [8, 3]
      ∧ Dims.nbDims [8, 3] < 4 ∧ expand_shape [8, 3] = [8, 3, 1, 1])
    ∧ ∃ (expand_layer : ILayer ℝ) (target : Dims),
      ((emitLayers (sampleEngine ℝ [8, 3]) (sampleOp 1) false (.external 0)
          { data := [1, 1, 1] } { data := [1, 1, 1] }).layers.drop
          (sampleEngine ℝ [8, 3]).layers.length).head? = some expand_layer
      ∧ expand_layer.kind = .Shuffle (some target)
      ∧ expand_layer.input = (sampleEngine ℝ [8, 3]).GetITensor (sampleOp (1 : ℝ)).X
      ∧ target.nbDims = 4
      ∧ (∀ i, i < Dims.nbDims [8, 3] →
          (0 ≤ Dims.d [8, 3] i → target.d i = Dims.d [8, 3] i)
          ∧ (Dims.d [8, 3] i < 0 → target.d i = 0))
      ∧ (∀ i, Dims.nbDims [8, 3] ≤ i → i < 4 → target.d i = 1) :=
  ⟨⟨rfl, by decide, by decide⟩,
   C6_expand_shape Real.sqrt (fun _ => 0) (sampleEngine ℝ [8, 3]) (sampleOp 1)
    (sampleScope [2, 2, 2] [1, 1, 1] [0, 0, 0] [3, 3, 3]) false _ [8, 3]
    (sample_operator _ _ _) rfl (by decide)⟩

/-! ## Emitted layers and registered weights -/

/-- C7: for a successful conversion whose input has rank at least `4`, the
only layer added to the network is one scale layer (no shuffle layer), that
layer takes the original input tensor as its input, and its output is what the
output-binding step binds to the declared output name. -/
theorem C7_rank_ge_four {α : Type} [Add α] [Sub α] [Mul α] [Div α]
    (sqrtf : α → α) (uninit : Nat → α) (engine_ : TensorRTEngine α)
    (op : OpDesc α) (scope : Scope α) (test_mode : Bool) (e' : TensorRTEngine α)
    (h : BatchNormOpConverter.operator sqrtf uninit engine_ op scope test_mode = .ok e')
    (hr : 4 ≤ (engine_.getDimensions (engine_.GetITensor op.X)).nbDims) :
    ∃ affine : ILayer α,
      e'.layers = engine_.layers ++ [affine]
      ∧ affine.isScaleNd = true ∧ affine.isShuffle = false
      ∧ (∀ l, l ∈ e'.layers.drop engine_.layers.length → l.isShuffle = false)
      ∧ affine.input = engine_.GetITensor op.X
      ∧ e'.bound_outputs
        = engine_.bound_outputs ++ [(op.Y, getOutput engine_.layers.length 0, !test_mode)]
      ∧ e'.itensor_map op.Y = getOutput engine_.layers.length 0 := by
  obtain ⟨bias, mean, scale, variance, fs, fb, -, -, -, -, -, -, -, -, he, -, -, -⟩ :=
    operator_ok_inv sqrtf uninit engine_ op scope test_mode h
  have hr2 : ¬ (engine_.getDimensions (engine_.GetITensor op.X)).nbDims < 4 := by omega
  refine ⟨{ kind := .ScaleNd .kCHANNEL
              { type := .kFLOAT, values := some fb, count := fb.length }
              { type := .kFLOAT, values := some fs, count := fs.length }
              { type := .kFLOAT, values := none, count := 0 } 1,
            input := engine_.GetITensor op.X, name := "" }, ?_, ?_, ?_, ?_, ?_, ?_, ?_⟩
  · rw [he, emitLayers_layers_ge _ _ _ _ _ _ hr2]
    rfl
  · rfl
  · rfl
  · intro l hl
    rw [he, emitLayers_layers_ge _ _ _ _ _ _ hr2] at hl
    simp at hl
    rw [hl]
    rfl
  · rfl
  · rw [he, emitLayers_bound_outputs, if_neg hr2]
  · rw [he, emitLayers_itensor_map, if_neg hr2]

/-- C7 at the three-channel sample with input shape `[1, 3, 2, 2]`. -/
theorem C7_rank_ge_four_witness :
    4 ≤ ((sampleEngine ℝ [1, 3, 2, 2]).getDimensions
        ((sampleEngine ℝ [1, 3, 2, 2]).GetITensor (sampleOp (1 : ℝ)).X)).nbDims
    ∧ ∃ affine : ILayer ℝ,
      (emitLayers (sampleEngine ℝ [1, 3, 2, 2]) (sampleOp 1) false (.external 0)
          { data := [1, 1, 1] } { data := [1, 1, 1] }).layers
        = (sampleEngine ℝ [1, 3, 2, 2]).layers ++ [affine]
      ∧ affine.isScaleNd = true ∧ affine.isShuffle = false
      ∧ (∀ l, l ∈ (emitLayers (sampleEngine ℝ [1, 3, 2, 2]) (sampleOp 1) false (.external 0)
          { data := [1, 1, 1] } { data := [1, 1, 1] }).layers.drop
            (sampleEngine ℝ [1, 3, 2, 2]).layers.length → l.isShuffle = false)
      ∧ affine.input = (sampleEngine ℝ [1, 3, 2, 2]).GetITensor (sampleOp (1 : ℝ)).X
      ∧ (emitLayers (sampleEngine ℝ [1, 3, 2, 2]) (sampleOp 1) false (.external 0)
          { data := [1, 1, 1] } { data := [1, 1, 1] }).bound_outputs
        = (sampleEngine ℝ [1, 3, 2, 2]).bound_outputs
          ++ [((sampleOp (1 : ℝ)).Y,
              getOutput (sampleEngine ℝ [1, 3, 2, 2]).layers.length 0, !false)]
      ∧ (emitLayers (sampleEngine ℝ [1, 3, 2, 2]) (sampleOp 1) false (.external 0)
          { data := [1, 1, 1] } { data := [1, 1, 1] }).itensor_map (sampleOp (1 : ℝ)).Y
        = getOutput (sampleEngine ℝ [1, 3, 2, 2]).layers.length 0 :=
  ⟨by decide,
   C7_rank_ge_four Real.sqrt (fun _ => 0) (sampleEngine ℝ [1, 3, 2, 2]) (sampleOp 1)
    (sampleScope [2, 2, 2] [1, 1, 1] [0, 0, 0] [3, 3, 3]) false _
    (sample_operator _ _ _) (by decide)⟩

/-- C8: a successful conversion adds exactly one scale layer; it is in
per-channel mode, its scale coefficients are the fused scale buffer, its shift
coefficients are the fused bias buffer, its power coefficients are empty; for an
input of rank below `4` the added layers are the expanding shuffle layer, the
scale layer fed by it, and the restoring shuffle layer fed by the scale layer;
otherwise the scale layer is the only added layer and is fed by the original
input tensor. -/
theorem C8_affine_node {α : Type} [Add α] [Sub α] [Mul α] [Div α]
    (sqrtf : α → α) (uninit : Nat → α) (engine_ : TensorRTEngine α)
    (op : OpDesc α) (scope : Scope α) (test_mode : Bool) (e' : TensorRTEngine α)
    (h : BatchNormOpConverter.operator sqrtf uninit engine_ op scope test_mode = .ok e') :
    ∃ (bias mean scale variance : DenseTensor α) (fused_scale fused_bias : List α)
      (affine : ILayer α),
      scope.FindVar op.Bias = some bias ∧ scope.FindVar op.Mean = some mean
      ∧ scope.FindVar op.Scale = some scale ∧ scope.FindVar op.Variance = some variance
      ∧ fusionLoop sqrtf op.epsilon scale.data bias.data mean.data variance.data
          scale.numel (mutable_data uninit scale.numel) (mutable_data uninit bias.numel)
        = .ok (fused_scale, fused_bias)
      ∧ (e'.layers.drop engine_.layers.length).filter ILayer.isScaleNd = [affine]
      ∧ affine.kind = .ScaleNd .kCHANNEL
          { type := .kFLOAT, values := some fused_bias, count := fused_bias.length }
          { type := .kFLOAT, values := some fused_scale, count := fused_scale.length }
          { type := .kFLOAT, values := none, count := 0 } 1
      ∧ ((engine_.getDimensions (engine_.GetITensor op.X)).nbDims < 4 →
          ∃ expand_layer squeeze_layer : ILayer α,
            e'.layers = engine_.layers ++ [expand_layer, affine, squeeze_layer]
            ∧ expand_layer.isShuffle = true
            ∧ expand_layer.input = engine_.GetITensor op.X
            ∧ affine.input = getOutput engine_.layers.length 0
            ∧ squeeze_layer.isShuffle = true
            ∧ squeeze_layer.input = getOutput (engine_.layers.length + 1) 0)
      ∧ (4 ≤ (engine_.getDimensions (engine_.GetITensor op.X)).nbDims →
          e'.layers = engine_.layers ++ [affine]
          ∧ affine.input = engine_.GetITensor op.X) := by
  obtain ⟨bias, mean, scale, variance, fs, fb, hb, hm, hs, hv, -, -, -, hloop, he, -, -, -⟩ :=
    operator_ok_inv sqrtf uninit engine_ op scope test_mode h
  by_cases hr : (engine_.getDimensions (engine_.GetITensor op.X)).nbDims < 4
  · refine ⟨bias, mean, scale, variance, fs, fb,
      { kind := .ScaleNd .kCHANNEL
          { type := .kFLOAT, values := some fb, count := fb.length }
          { type := .kFLOAT, values := some fs, count := fs.length }
          { type := .kFLOAT, values := none, count := 0 } 1,
        input := getOutput engine_.layers.length 0,
        name := "BN: ScaleNd: (Output: " ++ op.Y ++ ")" },
      hb, hm, hs, hv, hloop, ?_, rfl, ?_, ?_⟩
    · rw [he, emitLayers_layers_lt _ _ _ _ _ _ hr]
      simp [List.filter, ILayer.isScaleNd, DenseTensor.numel]
    · intro _
      exact ⟨{ kind := .Shuffle (some (expand_shape
                  (engine_.getDimensions (engine_.GetITensor op.X)))),
               input := engine_.GetITensor op.X,
               name := "BN_Shuffle: (Output: " ++ op.Y ++ ")" },
             { kind := .Shuffle (some (squeeze_shape
                  (engine_.getDimensions (engine_.GetITensor op.X)))),
               input := getOutput (engine_.layers.length + 1) 0, name := "" },
             by rw [he, emitLayers_layers_lt _ _ _ _ _ _ hr]; rfl, rfl, rfl, rfl, rfl, rfl⟩
    · intro h4
      omega
  · refine ⟨bias, mean, scale, variance, fs, fb,
      { kind := .ScaleNd .kCHANNEL
          { type := .kFLOAT, values := some fb, count := fb.length }
          { type := .kFLOAT, values := some fs, count := fs.length }
          { type := .kFLOAT, values := none, count := 0 } 1,
        input := engine_.GetITensor op.X, name := "" },
      hb, hm, hs, hv, hloop, ?_, rfl, ?_, ?_⟩
    · rw [he, emitLayers_layers_ge _ _ _ _ _ _ hr]
      simp [List.filter, ILayer.isScaleNd, DenseTensor.numel]
    · intro h4
      exact absurd h4 hr
    · intro _
      exact ⟨by rw [he, emitLayers_layers_ge _ _ _ _ _ _ hr]; rfl, rfl⟩

/-- C8 at the three-channel sample with the rank-2 input shape `[8, 3]`. -/
theorem C8_affine_node_witness :
    BatchNormOpConverter.operator Real.sqrt (fun _ => 0) (sampleEngine ℝ [8, 3]) (sampleOp 1)
        (sampleScope [2, 2, 2] [1, 1, 1] [0, 0, 0] [3, 3, 3]) false
      = .ok (emitLayers (sampleEngine ℝ [8, 3]) (sampleOp 1) false (.external 0)
          { data := [1, 1, 1] } { data := [1, 1, 1] })
    ∧ ∃ (bias mean scale variance : DenseTensor ℝ) (fused_scale fused_bias : List ℝ)
      (affine : ILayer ℝ),
      (sampleScope ([2, 2, 2] : List ℝ) [1, 1, 1] [0, 0, 0] [3, 3, 3]).FindVar
          (sampleOp (1 : ℝ)).Bias = some bias
      ∧ (sampleScope ([2, 2, 2] : List ℝ) [1, 1, 1] [0, 0, 0] [3, 3, 3]).FindVar
          (sampleOp (1 : ℝ)).Mean = some mean
      ∧ (sampleScope ([2, 2, 2] : List ℝ) [1, 1, 1] [0, 0, 0] [3, 3, 3]).FindVar
          (sampleOp (1 : ℝ)).Scale = some scale
      ∧ (sampleScope ([2, 2, 2] : List ℝ) [1, 1, 1] [0, 0, 0] [3, 3, 3]).FindVar
          (sampleOp (1 : ℝ)).Variance = some variance
      ∧ fusionLoop Real.sqrt (sampleOp (1 : ℝ)).epsilon scale.data bias.data mean.data
          variance.data scale.numel (mutable_data (fun _ => 0) scale.numel)
          (mutable_data (fun _ => 0) bias.numel)
        = .ok (fused_scale, fused_bias)
      ∧ ((emitLayers (sampleEngine ℝ [8, 3]) (sampleOp 1) false (.external 0)
          { data := [1, 1, 1] } { data := [1, 1, 1] }).layers.drop
            (sampleEngine ℝ [8, 3]).layers.length).filter ILayer.isScaleNd = [affine]
      ∧ affine.kind = .ScaleNd .kCHANNEL
          { type := .kFLOAT, values := some fused_bias, count := fused_bias.length }
          { type := .kFLOAT, values := some fused_scale, count := fused_scale.length }
          { type := .kFLOAT, values := none, count := 0 } 1
      ∧ (((sampleEngine ℝ [8, 3]).getDimensions
            ((sampleEngine ℝ [8, 3]).GetITensor (sampleOp (1 : ℝ)).X)).nbDims < 4 →
          ∃ expand_layer squeeze_layer : ILayer ℝ,
            (emitLayers (sampleEngine ℝ [8, 3]) (sampleOp 1) false (.external 0)
              { data := [1, 1, 1] } { data := [1, 1, 1] }).layers
              = (sampleEngine ℝ [8, 3]).layers ++ [expand_layer, affine, squeeze_layer]
            ∧ expand_layer.isShuffle = true
            ∧ expand_layer.input = (sampleEngine ℝ [8, 3]).GetITensor (sampleOp (1 : ℝ)).X
            ∧ affine.input = getOutput (sampleEngine ℝ [8, 3]).layers.length 0
            ∧ squeeze_layer.isShuffle = true
            ∧ squeeze_layer.input = getOutput ((sampleEngine ℝ [8, 3]).layers.length + 1) 0)
      ∧ (4 ≤ ((sampleEngine ℝ [8, 3]).getDimensions
            ((sampleEngine ℝ [8, 3]).GetITensor (sampleOp (1 : ℝ)).X)).nbDims →
          (emitLayers (sampleEngine ℝ [8, 3]) (sampleOp 1) false (.external 0)
              { data := [1, 1, 1] } { data := [1, 1, 1] }).layers
            = (sampleEngine ℝ [8, 3]).layers ++ [affine]
          ∧ affine.input = (sampleEngine ℝ [8, 3]).GetITensor (sampleOp (1 : ℝ)).X) :=
  ⟨sample_operator _ _ _,
   C8_affine_node Real.sqrt (fun _ => 0) (sampleEngine ℝ [8, 3]) (sampleOp 1)
    (sampleScope [2, 2, 2] [1, 1, 1] [0, 0, 0] [3, 3, 3]) false _ (sample_operator _ _ _)⟩

/-- C9: a successful conversion adds to the weight registry exactly two
entries, the fused bias buffer under the Bias parameter name and the fused
scale buffer under the Scale parameter name, and the contents registered are
the values bound as shift and scale coefficients of the emitted scale layer. -/
theorem C9_weight_registry {α : Type} [Add α] [Sub α] [Mul α] [Div α]
    (sqrtf : α → α) (uninit : Nat → α) (engine_ : TensorRTEngine α)
    (op : OpDesc α) (scope : Scope α) (test_mode : Bool) (e' : TensorRTEngine α)
    (h : BatchNormOpConverter.operator sqrtf uninit engine_ op scope test_mode = .ok e') :
    ∃ (bias mean scale variance : DenseTensor α) (fused_scale fused_bias : List α)
      (affine : ILayer α),
      scope.FindVar op.Bias = some bias ∧ scope.FindVar op.Mean = some mean
      ∧ scope.FindVar op.Scale = some scale ∧ scope.FindVar op.Variance = some variance
      ∧ fusionLoop sqrtf op.epsilon scale.data bias.data mean.data variance.data
          scale.numel (mutable_data uninit scale.numel) (mutable_data uninit bias.numel)
        = .ok (fused_scale, fused_bias)
      ∧ e'.weight_map = engine_.weight_map
          ++ [(op.Bias, { data := fused_bias }), (op.Scale, { data := fused_scale })]
      ∧ affine ∈ e'.layers.drop engine_.layers.length
      ∧ affine.kind = .ScaleNd .kCHANNEL
          { type := .kFLOAT, values := some fused_bias, count := fused_bias.length }
          { type := .kFLOAT, values := some fused_scale, count := fused_scale.length }
          { type := .kFLOAT, values := none, count := 0 } 1 := by
  obtain ⟨bias, mean, scale, variance, fs, fb, hb, hm, hs, hv, -, -, -, hloop, he, -, -, -⟩ :=
    operator_ok_inv sqrtf uninit engine_ op scope test_mode h
  by_cases hr : (engine_.getDimensions (engine_.GetITensor op.X)).nbDims < 4
  · refine ⟨bias, mean, scale, variance, fs, fb,
      { kind := .ScaleNd .kCHANNEL
          { type := .kFLOAT, values := some fb, count := fb.length }
          { type := .kFLOAT, values := some fs, count := fs.length }
          { type := .kFLOAT, values := none, count := 0 } 1,
        input := getOutput engine_.layers.length 0,
        name := "BN: ScaleNd: (Output: " ++ op.Y ++ ")" },
      hb, hm, hs, hv, hloop, by rw [he, emitLayers_weight_map], ?_, rfl⟩
    rw [he, emitLayers_layers_lt _ _ _ _ _ _ hr]
    simp [DenseTensor.numel]
  · refine ⟨bias, mean, scale, variance, fs, fb,
      { kind := .ScaleNd .kCHANNEL
          { type := .kFLOAT, values := some fb, count := fb.length }
          { type := .kFLOAT, values := some fs, count := fs.length }
          { type := .kFLOAT, values := none, count := 0 } 1,
        input := engine_.GetITensor op.X, name := "" },
      hb, hm, hs, hv, hloop, by rw [he, emitLayers_weight_map], ?_, rfl⟩
    rw [he, emitLayers_layers_ge _ _ _ _ _ _ hr]
    simp [DenseTensor.numel]

/-- C9 at the three-channel sample with input shape `[1, 3, 2, 2]`, in test
mode. -/
theorem C9_weight_registry_witness :
    BatchNormOpConverter.operator Real.sqrt (fun _ => 0) (sampleEngine ℝ [1, 3, 2, 2])
        (sampleOp 1) (sampleScope [2, 2, 2] [1, 1, 1] [0, 0, 0] [3, 3, 3]) true
      = .ok (emitLayers (sampleEngine ℝ [1, 3, 2, 2]) (sampleOp 1) true (.external 0)
          { data := [1, 1, 1] } { data := [1, 1, 1] })
    ∧ ∃ (bias mean scale variance : DenseTensor ℝ) (fused_scale fused_bias : List ℝ)
      (affine : ILayer ℝ),
      (sampleScope ([2, 2, 2] : List ℝ) [1, 1, 1] [0, 0, 0] [3, 3, 3]).FindVar
          (sampleOp (1 : ℝ)).Bias = some bias
      ∧ (sampleScope ([2, 2, 2] : List ℝ) [1, 1, 1] [0, 0, 0] [3, 3, 3]).FindVar
          (sampleOp (1 : ℝ)).Mean = some mean
      ∧ (sampleScope ([2, 2, 2] : List ℝ) [1, 1, 1] [0, 0, 0] [3, 3, 3]).FindVar
          (sampleOp (1 : ℝ)).Scale = some scale
      ∧ (sampleScope ([2, 2, 2] : List ℝ) [1, 1, 1] [0, 0, 0] [3, 3, 3]).FindVar
          (sampleOp (1 : ℝ)).Variance = some variance
      ∧ fusionLoop Real.sqrt (sampleOp (1 : ℝ)).epsilon scale.data bias.data mean.data
          variance.data scale.numel (mutable_data (fun _ => 0) scale.numel)
          (mutable_data (fun _ => 0) bias.numel)
        = .ok (fused_scale, fused_bias)
      ∧ (emitLayers (sampleEngine ℝ [1, 3, 2, 2]) (sampleOp 1) true (.external 0)
          { data := [1, 1, 1] } { data := [1, 1, 1] }).weight_map
        = (sampleEngine ℝ [1, 3, 2, 2]).weight_map
          ++ [((sampleOp (1 : ℝ)).Bias, { data := fused_bias }),
              ((sampleOp (1 : ℝ)).Scale, { data := fused_scale })]
      ∧ affine ∈ (emitLayers (sampleEngine ℝ [1, 3, 2, 2]) (sampleOp 1) true (.external 0)
          { data := [1, 1, 1] } { data := [1, 1, 1] }).layers.drop
            (sampleEngine ℝ [1, 3, 2, 2]).layers.length
      ∧ affine.kind = .ScaleNd .kCHANNEL
          { type := .kFLOAT, values := some fused_bias, count := fused_bias.length }
          { type := .kFLOAT, values := some fused_scale, count := fused_scale.length }
          { type := .kFLOAT, values := none, count := 0 } 1 :=
  ⟨sample_operator _ _ _,
   C9_weight_registry Real.sqrt (fun _ => 0) (sampleEngine ℝ [1, 3, 2, 2]) (sampleOp 1)
    (sampleScope [2, 2, 2] [1, 1, 1] [0, 0, 0] [3, 3, 3]) true _ (sample_operator _ _ _)⟩

/-- C10 fails as stated: with an input of shape `[1, 3, 2, 2]`, whose channel
extent is `3`, and four parameter tensors of two elements each, the conversion
succeeds and both fused buffers have two elements. -/
theorem C10_counterexample :
    Dims.d ((sampleEngine ℝ [1, 3, 2, 2]).getDimensions
        ((sampleEngine ℝ [1, 3, 2, 2]).GetITensor (sampleOp (1 : ℝ)).X)) 1 = 3
    ∧ Except.map (fun e => e.weight_map.map fun w => (w.1, (w.2.numel : Int)))
        (BatchNormOpConverter.operator Real.sqrt (fun _ => 0)
          (sampleEngine ℝ [1, 3, 2, 2]) (sampleOp 1)
          (sampleScope [2, 2] [1, 1] [0, 0] [3, 3]) false)
      = .ok [("bn_bias", 2), ("bn_scale", 2)]
    ∧ (2 : Int) ≠ 3 := by
  have hb : (sampleScope ([2, 2] : List ℝ) [1, 1] [0, 0] [3, 3]).FindVar
      (sampleOp (1 : ℝ)).Bias = some { data := [1, 1] } := by rfl
  have hm : (sampleScope ([2, 2] : List ℝ) [1, 1] [0, 0] [3, 3]).FindVar
      (sampleOp (1 : ℝ)).Mean = some { data := [0, 0] } := by rfl
  have hs : (sampleScope ([2, 2] : List ℝ) [1, 1] [0, 0] [3, 3]).FindVar
      (sampleOp (1 : ℝ)).Scale = some { data := [2, 2] } := by rfl
  have hv : (sampleScope ([2, 2] : List ℝ) [1, 1] [0, 0] [3, 3]).FindVar
      (sampleOp (1 : ℝ)).Variance = some { data := [3, 3] } := by rfl
  obtain ⟨fs, fb, -, hop, hl1, hl2, -⟩ :=
    operator_ok_of Real.sqrt (fun _ => 0) (sampleEngine ℝ [1, 3, 2, 2]) (sampleOp 1)
      (sampleScope [2, 2] [1, 1] [0, 0] [3, 3]) false hb hm hs hv
      (by simp [DenseTensor.numel]) (by simp [DenseTensor.numel])
      (by simp [DenseTensor.numel])
  rw [hop]
  refine ⟨by decide, ?_, by decide⟩
  simp only [DenseTensor.numel, List.length] at hl1 hl2
  simp [Except.map, emitLayers_weight_map, sampleEngine, sampleOp, DenseTensor.numel, hl1, hl2]

/-- C10 as amended: for a successful conversion the fused scale buffer has as
many elements as the Scale parameter tensor and the fused bias buffer as many
as the Bias parameter tensor. -/
theorem C10_fused_counts {α : Type} [Add α] [Sub α] [Mul α] [Div α]
    (sqrtf : α → α) (uninit : Nat → α) (engine_ : TensorRTEngine α)
    (op : OpDesc α) (scope : Scope α) (test_mode : Bool) (e' : TensorRTEngine α)
    (h : BatchNormOpConverter.operator sqrtf uninit engine_ op scope test_mode = .ok e') :
    ∃ (bias scale fused_bias fused_scale : DenseTensor α),
      scope.FindVar op.Bias = some bias ∧ scope.FindVar op.Scale = some scale
      ∧ e'.weight_map = engine_.weight_map ++ [(op.Bias, fused_bias), (op.Scale, fused_scale)]
      ∧ fused_scale.numel = scale.numel ∧ fused_bias.numel = bias.numel := by
  obtain ⟨bias, mean, scale, variance, fs, fb, hb, hm, hs, hv, -, -, -, -, he, hl1, hl2, -⟩ :=
    operator_ok_inv sqrtf uninit engine_ op scope test_mode h
  exact ⟨bias, scale, { data := fb }, { data := fs }, hb, hs,
    by rw [he, emitLayers_weight_map], hl1, hl2⟩

/-- C10 as amended, at an input of shape `[1, 3, 2, 2]` with three-element
parameter tensors. -/
theorem C10_fused_counts_witness :
    BatchNormOpConverter.operator Real.sqrt (fun _ => 0) (sampleEngine ℝ [1, 3, 2, 2])
        (sampleOp 1) (sampleScope [2, 2, 2] [1, 1, 1] [0, 0, 0] [3, 3, 3]) false
      = .ok (emitLayers (sampleEngine ℝ [1, 3, 2, 2]) (sampleOp 1) false (.external 0)
          { data := [1, 1, 1] } { data := [1, 1, 1] })
    ∧ ∃ (bias scale fused_bias fused_scale : DenseTensor ℝ),
      (sampleScope ([2, 2, 2] : List ℝ) [1, 1, 1] [0, 0, 0] [3, 3, 3]).FindVar
          (sampleOp (1 : ℝ)).Bias = some bias
      ∧ (sampleScope ([2, 2, 2] : List ℝ) [1, 1, 1] [0, 0, 0] [3, 3, 3]).FindVar
          (sampleOp (1 : ℝ)).Scale = some scale
      ∧ (emitLayers (sampleEngine ℝ [1, 3, 2, 2]) (sampleOp 1) false (.external 0)
          { data := [1, 1, 1] } { data := [1, 1, 1] }).weight_map
        = (sampleEngine ℝ [1, 3, 2, 2]).weight_map
          ++ [((sampleOp (1 : ℝ)).Bias, fused_bias), ((sampleOp (1 : ℝ)).Scale, fused_scale)]
      ∧ fused_scale.numel = scale.numel ∧ fused_bias.numel = bias.numel :=
  ⟨sample_operator _ _ _,
   C10_fused_counts Real.sqrt (fun _ => 0) (sampleEngine ℝ [1, 3, 2, 2]) (sampleOp 1)
    (sampleScope [2, 2, 2] [1, 1, 1] [0, 0, 0] [3, 3, 3]) false _ (sample_operator _ _ _)⟩

end BatchNormTRT
